import Mathlib

/-!
Verification development for the boat-race scraping/persistence repository.

The definitions below are a shallow embedding of the Python sources:

* scraping/scrape_util.py   — field-extraction utilities over markup nodes,
* scraping/entry_scraper.py — entry-sheet extractor,
* scraping/result_scraper.py — result-page payout extractor,
* db_handler.py             — find-or-create / upsert persistence layer,
* fanbook/import_fanbook.py — bulk-statistics filename parsing.

Storage is modelled as explicit lists of rows; SQLAlchemy sessions become
state-passing functions; Python exceptions become Except values; Python
dict keys that may be absent become Option values (an Option Option field
distinguishes an absent key from a key bound to None where the code
distinguishes them); CPython floats and SQL numerics are modelled as Rat.
-/

namespace Boat

/-- Python exceptions that the modelled code can raise or catch.  The
extraction utility catches exactly ValueError and IndexError, which are the
failures a numeric converter (int, float) and a capture-group lookup can
produce. -/
inductive PyExc where
  | valueError
  | indexError
deriving DecidableEq, Repr

deriving instance DecidableEq for Except

/-! ## Regular-expression engine

A small backtracking matcher sufficient for every pattern appearing in the
sources, with capturing groups numbered in pre-order as in Python re.
Greedy preference order is modelled by the order of the returned match
list; a fuel argument bounds the unfolding of plus so the function is
structurally total. -/

/-- Regular expressions as used by the source patterns. -/
inductive RE where
  /-- empty pattern -/
  | eps
  /-- a literal character -/
  | lit (c : Char)
  /-- a character class given by its membership test -/
  | cls (p : Char → Bool)
  /-- concatenation -/
  | cat (a b : RE)
  /-- alternation, preferring the left branch as Python re does -/
  | alt (a b : RE)
  /-- greedy one-or-more repetition -/
  | plus (a : RE)
  /-- capturing group -/
  | group (a : RE)
  /-- the anchor matching only at the start of the text -/
  | caret

/-- String of the characters of s between positions a (inclusive) and b
(exclusive). -/
def sliceStr (s : List Char) (a b : Nat) : String :=
  String.mk ((s.drop a).take (b - a))

/-- Python str.strip: surrounding whitespace removed. -/
def pyStrip (s : String) : String :=
  String.mk (((s.toList.dropWhile Char.isWhitespace).reverse.dropWhile
    Char.isWhitespace).reverse)

/-- Worker of pySplit: cur holds the current piece reversed; the fuel is
one more than the remaining input length, and each step consumes at least
one character, so it never runs out. -/
def splitGo (sep : List Char) : Nat → List Char → List Char → List (List Char)
  | 0, cur, _ => [cur.reverse]
  | f + 1, cur, rest =>
    match rest with
    | [] => [cur.reverse]
    | c :: t =>
      if sep ≠ [] ∧ sep.isPrefixOf rest then
        cur.reverse :: splitGo sep f [] (rest.drop sep.length)
      else splitGo sep f (c :: cur) t

/-- Python str.split with a nonempty separator: non-overlapping,
left-to-right, empty pieces kept. -/
def pySplit (s sep : String) : List String :=
  (splitGo sep.toList (s.toList.length + 1) [] s.toList).map String.mk

/-- Join a string list with a separator. -/
def strIntercalate (sep : String) : List String → String
  | [] => ""
  | [x] => x
  | x :: y :: xs => x ++ sep ++ strIntercalate sep (y :: xs)

/-- Python str.replace with a nonempty needle: every occurrence
replaced. -/
def pyReplace (s old new : String) : String :=
  strIntercalate new (pySplit s old)

/-- Pattern size, used to choose an adequate fuel for the matcher. -/
def RE.size : RE → Nat
  | .eps => 1
  | .caret => 1
  | .lit _ => 1
  | .cls _ => 1
  | .cat a b => a.size + b.size + 1
  | .alt a b => a.size + b.size + 1
  | .plus a => a.size + 1
  | .group a => a.size + 1

/-- All ways the pattern can match a prefix of the input starting at
position pos, as pairs of end position and captured-group list, listed in
the backtracking preference order of Python re (greedy, leftmost
alternative first).  The recursion is structural on a fuel argument
decremented at every call so that the kernel can evaluate the matcher; a
plus iteration must consume at least one character, so the generous fuel
chosen by the search wrappers below never runs out. -/
def mtch : Nat → RE → List Char → Nat → List (Nat × List String)
  | 0, _, _, _ => []
  | f + 1, re, s, pos =>
    match re with
    | .eps => [(pos, [])]
    | .caret => if pos = 0 then [(pos, [])] else []
    | .lit c =>
      match s.get? pos with
      | some c2 => if c2 = c then [(pos + 1, [])] else []
      | none => []
    | .cls p =>
      match s.get? pos with
      | some c2 => if p c2 then [(pos + 1, [])] else []
      | none => []
    | .cat a b =>
      (mtch f a s pos).flatMap (fun r1 =>
        (mtch f b s r1.1).map (fun r2 => (r2.1, r1.2 ++ r2.2)))
    | .alt a b => mtch f a s pos ++ mtch f b s pos
    | .plus a =>
      (mtch f a s pos).flatMap (fun r1 =>
        (if r1.1 > pos then mtch f (.plus a) s r1.1 else []) ++ [r1])
    | .group a =>
      (mtch f a s pos).map (fun r1 => (r1.1, sliceStr s pos r1.1 :: r1.2))

/-- Fuel sufficient for any match of the pattern against the input: every
fuel unit spent without consuming input walks down the pattern, and every
repetition step consumes input. -/
def reFuel (re : RE) (cs : List Char) : Nat :=
  (cs.length + 2) * (re.size + 2)

/-- Result of a successful match: the whole matched substring (group 0)
and the list of captured groups. -/
structure REMatch where
  whole : String
  groups : List String
deriving DecidableEq, Repr

/-- Python re.search: the match at the leftmost position where the pattern
matches, taking the first alternative in backtracking preference order. -/
def re_search (re : RE) (s : String) : Option REMatch :=
  let cs := s.toList
  (List.range (cs.length + 1)).findSome? (fun p =>
    match mtch (reFuel re cs) re cs p with
    | [] => none
    | r :: _ => some ⟨sliceStr cs p r.1, r.2⟩)

/-- Python re.match: like re_search but only at position zero. -/
def re_match (re : RE) (s : String) : Option REMatch :=
  let cs := s.toList
  match mtch (reFuel re cs) re cs 0 with
  | [] => none
  | r :: _ => some ⟨sliceStr cs 0 r.1, r.2⟩

/-- Python m.group(g): group 0 is the whole match, group g its g-th
captured group; an out-of-range group number raises IndexError. -/
def matchGroup (m : REMatch) (g : Nat) : Except PyExc String :=
  if g = 0 then .ok m.whole
  else
    match m.groups.get? (g - 1) with
    | some x => .ok x
    | none => .error .indexError

/-- Concatenation of literal characters, for spelling out literal pattern
fragments. -/
def strRE (s : String) : RE :=
  s.toList.foldr (fun c acc => RE.cat (RE.lit c) acc) RE.eps

/-! ## Python numeric converters -/

/-- Numeric value of a nonempty digit string. -/
def digitsToNat (cs : List Char) : Nat :=
  cs.foldl (fun acc c => acc * 10 + (c.toNat - 48)) 0

/-- Python int(s): strips surrounding whitespace, accepts an optional sign
followed by at least one digit, raises ValueError otherwise. -/
def pyInt (s : String) : Except PyExc Int :=
  let cs := (pyStrip s).toList
  match cs with
  | [] => .error .valueError
  | c :: rest =>
    if c = '-' then
      if rest ≠ [] ∧ rest.all Char.isDigit then .ok (-(digitsToNat rest : Int))
      else .error .valueError
    else if c = '+' then
      if rest ≠ [] ∧ rest.all Char.isDigit then .ok (digitsToNat rest : Int)
      else .error .valueError
    else if (c :: rest).all Char.isDigit then .ok (digitsToNat (c :: rest) : Int)
    else .error .valueError

/-- Python float(s) on the decimal forms that the source patterns can
produce: optional sign, then either digits with an optional fraction part
or a leading dot followed by digits; anything else (several dots, a lone
dot, an empty string) raises ValueError.  Exponent, infinity and nan forms
never reach this converter because the extraction patterns only capture
digits, dots and commas.  The value is modelled as a rational. -/
def pyFloat (s : String) : Except PyExc Rat :=
  let t := (pyStrip s).toList
  let core : Int → List Char → Except PyExc Rat := fun sign cs =>
    match cs.splitOn '.' with
    | [intPart] =>
      if intPart ≠ [] ∧ intPart.all Char.isDigit then
        .ok (mkRat (sign * (digitsToNat intPart : Int)) 1)
      else .error .valueError
    | [intPart, fracPart] =>
      if (intPart ≠ [] ∨ fracPart ≠ []) ∧ intPart.all Char.isDigit ∧
          fracPart.all Char.isDigit then
        .ok (mkRat
          (sign * ((digitsToNat intPart * 10 ^ fracPart.length + digitsToNat fracPart : Nat) : Int))
          (10 ^ fracPart.length))
      else .error .valueError
    | _ => .error .valueError
  match t with
  | '-' :: rest => core (-1) rest
  | '+' :: rest => core 1 rest
  | _ => core 1 t

/-- The converter lambda x: int(x.replace(",", "")) used for payout
amounts. -/
def intCommaStripped (s : String) : Except PyExc Int :=
  pyInt (String.mk (s.toList.filter (fun c => c ≠ ',')))

/-! ## Markup model

A BeautifulSoup document is modelled as a tree of element and text nodes.
Attributes are kept as raw strings; the class token list is recovered by
splitting the class attribute on spaces, as the parser does.  The handful
of CSS selector shapes used by the sources are modelled by dedicated
traversal functions, each noted with the selector it embeds. -/

/-- A parsed markup node. -/
inductive Node where
  /-- an element with a tag name, attributes and children -/
  | elem (tag : String) (attrs : List (String × String)) (children : List Node)
  /-- a text node -/
  | text (s : String)

/-- Attribute lookup on an element; text nodes have no attributes. -/
def Node.attr (n : Node) (name : String) : Option String :=
  match n with
  | .elem _ attrs _ => (attrs.find? (fun a => a.1 = name)).map (fun a => a.2)
  | .text _ => none

/-- The raw class attribute value, as matched by a CSS substring selector
such as td[class*='is-boatColor']. -/
def Node.classAttr (n : Node) : String :=
  (n.attr "class").getD ""

/-- The class token list, as returned by tag.get("class", []). -/
def Node.classes (n : Node) : List String :=
  (pySplit n.classAttr " ").filter (fun t => t ≠ "")

/-- Membership of one class token, as matched by a CSS class selector. -/
def Node.hasClass (n : Node) (c : String) : Bool :=
  n.classes.contains c

/-- Python tag.has_attr(name). -/
def Node.hasPyAttr (n : Node) (name : String) : Bool :=
  (n.attr name).isSome

/-- Whether the node is an element with the given tag. -/
def Node.isTag (n : Node) (t : String) : Bool :=
  match n with
  | .elem tag _ _ => tag = t
  | .text _ => false

/-- The element children of a node, the population counted by CSS
nth-child. -/
def Node.childElems (n : Node) : List Node :=
  match n with
  | .elem _ _ cs => cs.filter (fun c => match c with | .elem _ _ _ => true | .text _ => false)
  | .text _ => []

mutual
/-- All descendant elements of a node in document order, the population
searched by a CSS descendant selector and by find_all. -/
def Node.descElems : Node → List Node
  | .text _ => []
  | .elem _ _ cs => descElemsList cs
/-- Descendant elements of a node list in document order. -/
def descElemsList : List Node → List Node
  | [] => []
  | n :: ns =>
    (match n with | .elem _ _ _ => [n] | .text _ => []) ++
      Node.descElems n ++ descElemsList ns
end

mutual
/-- Python tag.text: the concatenation of all descendant strings. -/
def Node.textContent : Node → String
  | .text s => s
  | .elem _ _ cs => textContentList cs
/-- Concatenated text of a node list. -/
def textContentList : List Node → String
  | [] => ""
  | n :: ns => Node.textContent n ++ textContentList ns
end

mutual
/-- Python tag.decode_contents() restricted to what the sources consume:
text is emitted verbatim, an empty br element prints as its void form, and
any other element prints its tag around its serialized children
(attributes are not re-serialized because the cell-splitting code only
looks for the br separator). -/
def serializeList : List Node → String
  | [] => ""
  | n :: ns => serializeNode n ++ serializeList ns
/-- Serialization of one node. -/
def serializeNode : Node → String
  | .text s => s
  | .elem t _ cs =>
    if t = "br" ∧ cs.isEmpty then "<br/>"
    else "<" ++ t ++ ">" ++ serializeList cs ++ "</" ++ t ++ ">"
end

/-- Python tag.decode_contents(): the serialized children of the node. -/
def Node.decodeContents (n : Node) : String :=
  match n with
  | .elem _ _ cs => serializeList cs
  | .text s => s

/-- Python truthiness of a BeautifulSoup node: a tag is truthy when it has
children (its len is its child count) and a string when nonempty. -/
def Node.pyTruthy (n : Node) : Bool :=
  match n with
  | .elem _ _ cs => ¬cs.isEmpty
  | .text s => s ≠ ""

/-- Python truthiness of an optional node, as used by the guards
written as: if element: ... -/
def optTruthy (o : Option Node) : Bool :=
  match o with
  | some n => n.pyTruthy
  | none => false

/-- Python truthiness of an optional string. -/
def truthyS (o : Option String) : Bool :=
  match o with
  | some s => s ≠ ""
  | none => false

/-- Python truthiness of an optional natural number. -/
def truthyN (o : Option Nat) : Bool :=
  match o with
  | some n => n ≠ 0
  | none => false

/-- Python truthiness of an optional integer. -/
def truthyI (o : Option Int) : Bool :=
  match o with
  | some i => i ≠ 0
  | none => false

/-- The k-th element child (1-based, as in CSS nth-child), provided it has
the requested tag.  This embeds the selector fragment tag:nth-child(k) on
the well-formed tables the sources address. -/
def Node.nthChildOfTag (n : Node) (tag : String) (k : Nat) : Option Node :=
  match n.childElems.get? (k - 1) with
  | some c => if c.isTag tag then some c else none
  | none => none

/-- First descendant element satisfying a predicate, in document order, as
returned by select_one with a descendant selector. -/
def Node.firstDesc (n : Node) (p : Node → Bool) : Option Node :=
  n.descElems.find? p

/-- Whether sub occurs as a substring of l. -/
def containsSub (l sub : List Char) : Bool :=
  if sub.isPrefixOf l then true
  else
    match l with
    | [] => false
    | _ :: t => containsSub t sub

/-- Whether sub occurs as a substring of s, the CSS attribute substring
match written attr*=value. -/
def strContainsSub (s sub : String) : Bool :=
  containsSub s.toList sub.toList

/-! ## Field extraction utilities (scraping/scrape_util.py) -/

/-- Embedding of the extract-text helper of scrape_util.py: the trimmed
text of a truthy node, with the empty string and the sentinel marker
resolving to the default. -/
def extractText (element : Option Node) (default : Option String) : Option String :=
  match element with
  | some el =>
    if el.pyTruthy then
      let text := pyStrip el.textContent
      if text ≠ "" ∧ text ≠ "---" then some text else default
    else default
  | none => default

/-- Embedding of the extract-number helper of scrape_util.py: searches the
pattern in a truthy text, extracts the requested capture group and applies
the converter inside a try block whose except clause catches ValueError
and IndexError by falling through to the default. -/
def extractNumber {V : Type} (text : Option String) (pattern : RE) (group : Nat)
    (type_converter : String → Except PyExc V) (default : Option V) : Option V :=
  match text with
  | some t =>
    if t ≠ "" then
      match re_search pattern t with
      | some m =>
        match (matchGroup m group).bind type_converter with
        | .ok v => some v
        | .error .valueError => default
        | .error .indexError => default
      | none => default
    else default
  | none => default

/-! Named patterns appearing in the sources. -/

/-- The pattern (\d+). -/
def reDigits : RE := .group (.plus (.cls Char.isDigit))

/-- The pattern ^(\d+). -/
def reCaretDigits : RE := .cat .caret reDigits

/-- The pattern ([,\d]+). -/
def reCommaDigits : RE := .group (.plus (.cls (fun c => c = ',' ∨ c.isDigit)))

/-- The pattern ([\d\.]+). -/
def reNumDot : RE := .group (.plus (.cls (fun c => c.isDigit ∨ c = '.')))

/-- The pattern F(\d+). -/
def reF : RE := .cat (.lit 'F') reDigits

/-- The pattern L(\d+). -/
def reL : RE := .cat (.lit 'L') reDigits

/-- The pattern (\d+)歳. -/
def reAge : RE := .cat reDigits (.lit '歳')

/-- The pattern ([\d\.]+)kg. -/
def reKg : RE := .cat reNumDot (strRE "kg")

/-- The pattern (\d+)m. -/
def reDistance : RE := .cat reDigits (.lit 'm')

/-! ## Bulk-statistics filename parsing (fanbook/import_fanbook.py) -/

/-- A calendar date as produced by datetime.date. -/
structure PyDate where
  year : Nat
  month : Nat
  day : Nat
deriving DecidableEq, Repr

/-- Python os.path.basename on the path separators the repository uses. -/
def basename (p : String) : String :=
  (pySplit p "/").getLastD p

/-- The anchored filename pattern fan(\d{2})(\d{2})\.(csv|parquet). -/
def fanPattern : RE :=
  .cat (strRE "fan")
    (.cat (.group (.cat (.cls Char.isDigit) (.cls Char.isDigit)))
      (.cat (.group (.cat (.cls Char.isDigit) (.cls Char.isDigit)))
        (.cat (.lit '.') (.group (.alt (strRE "csv") (strRE "parquet"))))))

/-- Python int on a captured all-digit group, as used on the two-digit
year and month captures. -/
def digitGroupToNat (s : String) : Nat :=
  digitsToNat s.toList

/-- Embedding of parse_filename: extracts year and term from a bulk file
name of the form fanYYMM.csv or fanYYMM.parquet, raising ValueError (as an
error string) on a malformed name or month. -/
def parse_filename (filepath : String) : Except String (Nat × Nat) :=
  let filename := basename filepath
  match re_match fanPattern filename with
  | none => .error "ファイル名の形式が不正です。fanYYMM.csv または fanYYMM.parquet 形式である必要があります。"
  | some m =>
    let yy := digitGroupToNat ((matchGroup m 1).toOption.getD "")
    let mm := digitGroupToNat ((matchGroup m 2).toOption.getD "")
    let year := 2000 + yy
    if 4 ≤ mm ∧ mm ≤ 9 then .ok (year, 1)
    else if 10 ≤ mm ∧ mm ≤ 12 then .ok (year, 2)
    else if 1 ≤ mm ∧ mm ≤ 3 then .ok (year - 1, 2)
    else .error "月の値が不正です。"

/-- Embedding of calculate_term_dates: the aggregation window of a year
and term. -/
def calculate_term_dates (year term : Nat) : Except String (PyDate × PyDate) :=
  if term = 1 then .ok (⟨year, 4, 1⟩, ⟨year, 9, 30⟩)
  else if term = 2 then .ok (⟨year, 10, 1⟩, ⟨year + 1, 3, 31⟩)
  else .error "不正な期が指定されました。"

/-- Two-digit decimal rendering of a number below one hundred, used to
spell out concrete fanYYMM names. -/
def twoDigits (n : Nat) : String :=
  String.mk [Nat.digitChar (n / 10 % 10), Nat.digitChar (n % 10)]

/-- A bulk-statistics filename built from its two-digit year and month. -/
def mkFanName (yy mm : Nat) (ext : String) : String :=
  "fan" ++ twoDigits yy ++ twoDigits mm ++ "." ++ ext

/-! ## Persistence layer (db_handler.py and models.py)

A session is modelled as the list of rows of each table; find-or-create
and upsert functions take the row list and return the touched row together
with the updated list.  Query first() is List.find?, mutating a found ORM
object is an in-place replacement of the first matching row, and adding a
new object appends it. -/

/-- Replacement of the first element satisfying p, the effect of mutating
the ORM object returned by a first() query. -/
def updateFirst {α : Type} (p : α → Bool) (y : α) : List α → List α
  | [] => []
  | x :: xs => if p x then y :: xs else x :: updateFirst p y xs

/-- A row of the player table. -/
structure PlayerRow where
  player_id : Nat
  name : Option String
  branch : Option String
  hometown : Option String
  birth_date : Option PyDate
deriving DecidableEq, Repr

/-- The incoming player dict.  The origin key needs the outer Option
because the code asks for its presence with a two-level dict get; for the
other keys a plain get collapses an absent key and None. -/
structure PlayerData where
  player_id : Option Nat
  name : Option String
  branch : Option String
  origin : Option (Option String)
  hometown : Option String
  birth_date : Option PyDate
deriving DecidableEq, Repr

/-- Embedding of get_or_create_player: look up by registration number; on
a hit, overwrite only the name and only when the incoming name is truthy
and differs; on a miss, insert a new row whose hometown prefers the origin
key when that key is present. -/
def get_or_create_player (players : List PlayerRow) (pd : PlayerData) :
    Except String (PlayerRow × List PlayerRow) :=
  if ¬truthyN pd.player_id then .error "player_idは必須です"
  else
    let pid := pd.player_id.getD 0
    match players.find? (fun p => p.player_id == pid) with
    | some player =>
      let player1 :=
        if player.name ≠ pd.name ∧ truthyS pd.name then { player with name := pd.name }
        else player
      .ok (player1, updateFirst (fun p => p.player_id == pid) player1 players)
    | none =>
      let player1 : PlayerRow :=
        { player_id := pid
          name := pd.name
          branch := pd.branch
          hometown := pd.origin.getD pd.hometown
          birth_date := pd.birth_date }
      .ok (player1, players ++ [player1])

/-- A row of the race table; the natural identity columns and the season
pair are not nullable, every other column is. -/
structure RaceRow where
  hd : String
  jcd : String
  rno : Nat
  race_name : Option String
  distance : Option Int
  deadline : Option String
  weather : Option String
  wind_speed : Option Int
  wind_dir : Option String
  water_temp : Option Rat
  wave_height : Option Int
  season_year : Nat
  season_term : Nat
deriving DecidableEq, Repr

/-- The incoming race dict of get_or_create_race. -/
structure RaceData where
  hd : Option String
  jcd : Option String
  rno : Option Nat
  race_name : Option String
  distance : Option Int
  deadline : Option String
  weather : Option String
  wind_speed : Option Int
  wind_dir : Option String
  water_temp : Option Rat
  wave_height : Option Int
  season_year : Option Nat
  season_term : Option Nat
deriving DecidableEq, Repr

/-- The filter of the race lookup: equality on date, venue code and race
number. -/
@[reducible] def raceMatches (rd : RaceData) (r : RaceRow) : Bool :=
  r.hd == rd.hd.getD "" ∧ r.jcd == rd.jcd.getD "" ∧ r.rno == rd.rno.getD 0

/-- Embedding of get_or_create_race: require the natural identity and the
season pair to be truthy, return the first matching row unchanged if one
exists, otherwise insert a row carrying the supplied secondary fields. -/
def get_or_create_race (races : List RaceRow) (rd : RaceData) :
    Except String (RaceRow × List RaceRow) :=
  if ¬(truthyS rd.hd ∧ truthyS rd.jcd ∧ truthyN rd.rno) then
    .error "hd, jcd, rnoは必須です"
  else if ¬(truthyN rd.season_year ∧ truthyN rd.season_term) then
    .error "season_year, season_termは必須です"
  else
    match races.find? (raceMatches rd) with
    | some race => .ok (race, races)
    | none =>
      let race : RaceRow :=
        { hd := rd.hd.getD ""
          jcd := rd.jcd.getD ""
          rno := rd.rno.getD 0
          race_name := rd.race_name
          distance := rd.distance
          deadline := rd.deadline
          weather := rd.weather
          wind_speed := rd.wind_speed
          wind_dir := rd.wind_dir
          water_temp := rd.water_temp
          wave_height := rd.wave_height
          season_year := rd.season_year.getD 0
          season_term := rd.season_term.getD 0 }
      .ok (race, races ++ [race])

/-- An incoming parts-changed value: the scrapers may supply either a
plain string or a list of part names; a list is stored JSON-serialized. -/
inductive PartsVal where
  | str (s : String)
  | list (l : List String)
deriving DecidableEq, Repr

/-- JSON string escaping of quote and backslash, the characters
json.dumps escapes that can occur in part names. -/
def jsonEscape (s : String) : String :=
  String.mk (s.toList.flatMap (fun c =>
    if c = '"' ∨ c = '\\' then ['\\', c] else [c]))

/-- Python json.dumps on a list of strings with ensure_ascii False. -/
def jsonDumpsList (l : List String) : String :=
  "[" ++ strIntercalate ", " (l.map (fun s => "\"" ++ jsonEscape s ++ "\"")) ++ "]"

/-- A row of the race-entry table: the identity triple is not nullable,
every enrichment column is. -/
structure EntryRow where
  race_id : Nat
  lane : Nat
  player_id : Nat
  class_ : Option String
  age : Option Int
  weight : Option Rat
  f_count : Option Int
  l_count : Option Int
  avg_st : Option Rat
  nationwide_two_win_rate : Option Rat
  nationwide_three_win_rate : Option Rat
  local_two_win_rate : Option Rat
  local_three_win_rate : Option Rat
  motor_no : Option Int
  motor_two_win_rate : Option Rat
  motor_three_win_rate : Option Rat
  boat_no : Option Int
  boat_two_win_rate : Option Rat
  boat_three_win_rate : Option Rat
  tuning_weight : Option Rat
  exhibition_time : Option Rat
  tilt : Option Rat
  parts_changed : Option String
  rank_raw : Option String
  rank : Option Int
  race_time : Option String
  start_course : Option Int
  start_st : Option Rat
  decision : Option String
deriving DecidableEq, Repr

/-- The incoming entry dict of upsert_race_entry.  Every updatable field
is an Option Option: the outer layer records whether the key is present
(the code updates a column only on key presence) and the inner layer is
the possibly-None value.  The key written class in the dict is modelled by
classAlt because class is reserved here as it is in the source schema. -/
structure EntryData where
  race_id : Option Nat
  lane : Option Nat
  player_id : Option Nat
  class_ : Option (Option String)
  classAlt : Option (Option String)
  age : Option (Option Int)
  weight : Option (Option Rat)
  f_count : Option (Option Int)
  l_count : Option (Option Int)
  avg_st : Option (Option Rat)
  nationwide_two_win_rate : Option (Option Rat)
  nationwide_three_win_rate : Option (Option Rat)
  local_two_win_rate : Option (Option Rat)
  local_three_win_rate : Option (Option Rat)
  motor_no : Option (Option Int)
  motor_two_win_rate : Option (Option Rat)
  motor_three_win_rate : Option (Option Rat)
  boat_no : Option (Option Int)
  boat_two_win_rate : Option (Option Rat)
  boat_three_win_rate : Option (Option Rat)
  tuning_weight : Option (Option Rat)
  exhibition_time : Option (Option Rat)
  tilt : Option (Option Rat)
  parts_changed : Option (Option PartsVal)
  rank_raw : Option (Option String)
  rank : Option (Option Int)
  race_time : Option (Option String)
  start_course : Option (Option Int)
  start_st : Option (Option Rat)
  decision : Option (Option String)
deriving DecidableEq, Repr

/-- An entry dict carrying only the mandatory identity keys, the base for
concrete payloads. -/
def emptyEntryData : EntryData where
  race_id := none
  lane := none
  player_id := none
  class_ := none
  classAlt := none
  age := none
  weight := none
  f_count := none
  l_count := none
  avg_st := none
  nationwide_two_win_rate := none
  nationwide_three_win_rate := none
  local_two_win_rate := none
  local_three_win_rate := none
  motor_no := none
  motor_two_win_rate := none
  motor_three_win_rate := none
  boat_no := none
  boat_two_win_rate := none
  boat_three_win_rate := none
  tuning_weight := none
  exhibition_time := none
  tilt := none
  parts_changed := none
  rank_raw := none
  rank := none
  race_time := none
  start_course := none
  start_st := none
  decision := none

/-- Conditional column update: assign the incoming value when the key is
present, keep the stored value otherwise. -/
def updF {α : Type} (d : Option (Option α)) (old : Option α) : Option α :=
  match d with
  | some v => v
  | none => old

/-- Python: a or b on optional strings, taking a when truthy. -/
def pyOrStr (a b : Option String) : Option String :=
  if truthyS a then a else b

/-- The class column update: triggered by either spelling of the key,
assigning the first truthy of the two values. -/
def updClass (ed : EntryData) (old : Option String) : Option String :=
  if ed.class_.isSome ∨ ed.classAlt.isSome then
    pyOrStr (ed.class_.getD none) (ed.classAlt.getD none)
  else old

/-- The parts-changed column update: a None value clears the column, a
string is stored as is, a list is stored JSON-serialized. -/
def updParts (d : Option (Option PartsVal)) (old : Option String) : Option String :=
  match d with
  | none => old
  | some none => none
  | some (some (.str s)) => some s
  | some (some (.list l)) => some (jsonDumpsList l)

/-- The field-update block of upsert_race_entry: each supplied key
overwrites its column, absent keys leave their columns untouched. -/
def applyEntryUpdates (e : EntryRow) (ed : EntryData) : EntryRow :=
  { e with
    class_ := updClass ed e.class_
    age := updF ed.age e.age
    weight := updF ed.weight e.weight
    f_count := updF ed.f_count e.f_count
    l_count := updF ed.l_count e.l_count
    avg_st := updF ed.avg_st e.avg_st
    nationwide_two_win_rate := updF ed.nationwide_two_win_rate e.nationwide_two_win_rate
    nationwide_three_win_rate := updF ed.nationwide_three_win_rate e.nationwide_three_win_rate
    local_two_win_rate := updF ed.local_two_win_rate e.local_two_win_rate
    local_three_win_rate := updF ed.local_three_win_rate e.local_three_win_rate
    motor_no := updF ed.motor_no e.motor_no
    motor_two_win_rate := updF ed.motor_two_win_rate e.motor_two_win_rate
    motor_three_win_rate := updF ed.motor_three_win_rate e.motor_three_win_rate
    boat_no := updF ed.boat_no e.boat_no
    boat_two_win_rate := updF ed.boat_two_win_rate e.boat_two_win_rate
    boat_three_win_rate := updF ed.boat_three_win_rate e.boat_three_win_rate
    tuning_weight := updF ed.tuning_weight e.tuning_weight
    exhibition_time := updF ed.exhibition_time e.exhibition_time
    tilt := updF ed.tilt e.tilt
    parts_changed := updParts ed.parts_changed e.parts_changed
    rank_raw := updF ed.rank_raw e.rank_raw
    rank := updF ed.rank e.rank
    race_time := updF ed.race_time e.race_time
    start_course := updF ed.start_course e.start_course
    start_st := updF ed.start_st e.start_st
    decision := updF ed.decision e.decision }

/-- The filter of the entry lookup: equality on race and lane. -/
@[reducible] def entryMatches (ed : EntryData) (r : EntryRow) : Bool :=
  r.race_id == ed.race_id.getD 0 ∧ r.lane == ed.lane.getD 0

/-- Embedding of get_race_entry: the first row of the race and lane. -/
def get_race_entry (entries : List EntryRow) (race_id lane : Nat) : Option EntryRow :=
  entries.find? (fun r => r.race_id == race_id ∧ r.lane == lane)

/-- A fresh entry row carrying only its identity triple. -/
def blankEntry (race_id lane player_id : Nat) : EntryRow where
  race_id := race_id
  lane := lane
  player_id := player_id
  class_ := none
  age := none
  weight := none
  f_count := none
  l_count := none
  avg_st := none
  nationwide_two_win_rate := none
  nationwide_three_win_rate := none
  local_two_win_rate := none
  local_three_win_rate := none
  motor_no := none
  motor_two_win_rate := none
  motor_three_win_rate := none
  boat_no := none
  boat_two_win_rate := none
  boat_three_win_rate := none
  tuning_weight := none
  exhibition_time := none
  tilt := none
  parts_changed := none
  rank_raw := none
  rank := none
  race_time := none
  start_course := none
  start_st := none
  decision := none

/-- Embedding of upsert_race_entry: require the truthy identity triple;
on a hit, overwrite a conflicting player and apply the supplied fields to
the found row; on a miss, build a fresh row and apply the supplied fields
to it. -/
def upsert_race_entry (entries : List EntryRow) (ed : EntryData) :
    Except String (EntryRow × List EntryRow) :=
  if ¬(truthyN ed.race_id ∧ truthyN ed.lane ∧ truthyN ed.player_id) then
    .error "race_id, lane, player_idは必須です"
  else
    let rid := ed.race_id.getD 0
    let lane := ed.lane.getD 0
    let pid := ed.player_id.getD 0
    match get_race_entry entries rid lane with
    | some entry0 =>
      let entry1 := if entry0.player_id ≠ pid then { entry0 with player_id := pid } else entry0
      let entry2 := applyEntryUpdates entry1 ed
      .ok (entry2, updateFirst (fun r => r.race_id == rid ∧ r.lane == lane) entry2 entries)
    | none =>
      let entry2 := applyEntryUpdates (blankEntry rid lane pid) ed
      .ok (entry2, entries ++ [entry2])

/-- The incoming entry dict is fully applied to a row: every supplied key
has overwritten its column with the supplied value (a supplied list of
changed parts appearing JSON-serialized). -/
def entryReflects (ed : EntryData) (r : EntryRow) : Prop :=
  ((ed.class_.isSome ∨ ed.classAlt.isSome) →
    r.class_ = pyOrStr (ed.class_.getD none) (ed.classAlt.getD none)) ∧
  (∀ v, ed.age = some v → r.age = v) ∧
  (∀ v, ed.weight = some v → r.weight = v) ∧
  (∀ v, ed.f_count = some v → r.f_count = v) ∧
  (∀ v, ed.l_count = some v → r.l_count = v) ∧
  (∀ v, ed.avg_st = some v → r.avg_st = v) ∧
  (∀ v, ed.nationwide_two_win_rate = some v → r.nationwide_two_win_rate = v) ∧
  (∀ v, ed.nationwide_three_win_rate = some v → r.nationwide_three_win_rate = v) ∧
  (∀ v, ed.local_two_win_rate = some v → r.local_two_win_rate = v) ∧
  (∀ v, ed.local_three_win_rate = some v → r.local_three_win_rate = v) ∧
  (∀ v, ed.motor_no = some v → r.motor_no = v) ∧
  (∀ v, ed.motor_two_win_rate = some v → r.motor_two_win_rate = v) ∧
  (∀ v, ed.motor_three_win_rate = some v → r.motor_three_win_rate = v) ∧
  (∀ v, ed.boat_no = some v → r.boat_no = v) ∧
  (∀ v, ed.boat_two_win_rate = some v → r.boat_two_win_rate = v) ∧
  (∀ v, ed.boat_three_win_rate = some v → r.boat_three_win_rate = v) ∧
  (∀ v, ed.tuning_weight = some v → r.tuning_weight = v) ∧
  (∀ v, ed.exhibition_time = some v → r.exhibition_time = v) ∧
  (∀ v, ed.tilt = some v → r.tilt = v) ∧
  (ed.parts_changed = some none → r.parts_changed = none) ∧
  (∀ s, ed.parts_changed = some (some (.str s)) → r.parts_changed = some s) ∧
  (∀ l, ed.parts_changed = some (some (.list l)) →
    r.parts_changed = some (jsonDumpsList l)) ∧
  (∀ v, ed.rank_raw = some v → r.rank_raw = v) ∧
  (∀ v, ed.rank = some v → r.rank = v) ∧
  (∀ v, ed.race_time = some v → r.race_time = v) ∧
  (∀ v, ed.start_course = some v → r.start_course = v) ∧
  (∀ v, ed.start_st = some v → r.start_st = v) ∧
  (∀ v, ed.decision = some v → r.decision = v)

/-- Every column whose key the incoming entry dict does not carry is
unchanged between the old and the new row. -/
def entryPreserves (ed : EntryData) (old r : EntryRow) : Prop :=
  ((ed.class_ = none ∧ ed.classAlt = none) → r.class_ = old.class_) ∧
  (ed.age = none → r.age = old.age) ∧
  (ed.weight = none → r.weight = old.weight) ∧
  (ed.f_count = none → r.f_count = old.f_count) ∧
  (ed.l_count = none → r.l_count = old.l_count) ∧
  (ed.avg_st = none → r.avg_st = old.avg_st) ∧
  (ed.nationwide_two_win_rate = none →
    r.nationwide_two_win_rate = old.nationwide_two_win_rate) ∧
  (ed.nationwide_three_win_rate = none →
    r.nationwide_three_win_rate = old.nationwide_three_win_rate) ∧
  (ed.local_two_win_rate = none → r.local_two_win_rate = old.local_two_win_rate) ∧
  (ed.local_three_win_rate = none → r.local_three_win_rate = old.local_three_win_rate) ∧
  (ed.motor_no = none → r.motor_no = old.motor_no) ∧
  (ed.motor_two_win_rate = none → r.motor_two_win_rate = old.motor_two_win_rate) ∧
  (ed.motor_three_win_rate = none → r.motor_three_win_rate = old.motor_three_win_rate) ∧
  (ed.boat_no = none → r.boat_no = old.boat_no) ∧
  (ed.boat_two_win_rate = none → r.boat_two_win_rate = old.boat_two_win_rate) ∧
  (ed.boat_three_win_rate = none → r.boat_three_win_rate = old.boat_three_win_rate) ∧
  (ed.tuning_weight = none → r.tuning_weight = old.tuning_weight) ∧
  (ed.exhibition_time = none → r.exhibition_time = old.exhibition_time) ∧
  (ed.tilt = none → r.tilt = old.tilt) ∧
  (ed.parts_changed = none → r.parts_changed = old.parts_changed) ∧
  (ed.rank_raw = none → r.rank_raw = old.rank_raw) ∧
  (ed.rank = none → r.rank = old.rank) ∧
  (ed.race_time = none → r.race_time = old.race_time) ∧
  (ed.start_course = none → r.start_course = old.start_course) ∧
  (ed.start_st = none → r.start_st = old.start_st) ∧
  (ed.decision = none → r.decision = old.decision)

/-! ## Payout persistence (db_handler.py create_payouts) -/

/-- A row of the payout table; every non-identity column is nullable in
the schema, which is what makes the no-null-amount invariant a property of
the code rather than of the types. -/
structure PayoutRow where
  race_id : Nat
  bet_type : Option String
  combination : Option String
  amount : Option Int
  popularity : Option Int
deriving DecidableEq, Repr

/-- An incoming payout dict. -/
structure PayoutData where
  bet_type : Option String
  combination : Option String
  amount : Option Int
  popularity : Option Int
deriving DecidableEq, Repr

/-- The completeness test of an incoming payout dict: all of bet type,
combination and amount truthy. -/
def validPayoutData (pd : PayoutData) : Bool :=
  truthyS pd.bet_type ∧ truthyS pd.combination ∧ truthyI pd.amount

/-- The row built from a complete incoming payout dict. -/
def mkPayoutRow (race_id : Nat) (pd : PayoutData) : PayoutRow where
  race_id := race_id
  bet_type := pd.bet_type
  combination := pd.combination
  amount := pd.amount
  popularity := pd.popularity

/-- Embedding of create_payouts: an empty incoming list returns early with
no change; otherwise every stored payout row of the race is deleted, then
one row per complete incoming dict is inserted, incomplete dicts being
skipped with a warning.  The first component is the list of created rows,
the second the updated table. -/
def create_payouts (payouts : List PayoutRow) (race_id : Nat)
    (payout_data_list : List PayoutData) : List PayoutRow × List PayoutRow :=
  if payout_data_list.isEmpty then ([], payouts)
  else
    let remaining := payouts.filter (fun p => ¬(p.race_id == race_id))
    let created := payout_data_list.filterMap (fun pd =>
      if validPayoutData pd then some (mkPayoutRow race_id pd) else none)
    (created, remaining ++ created)

/-! ## Logging model

The extractors emit log records; the level is what the claims observe
(warning versus hard failure), so the embedding carries the level and the
constant part of the message. -/

/-- Python logging levels used by the sources. -/
inductive LogLevel where
  | debug
  | info
  | warning
  | error
deriving DecidableEq, Repr

/-- One emitted log record. -/
structure LogMsg where
  level : LogLevel
  msg : String
deriving DecidableEq, Repr

/-! ## Entry-sheet extractor (scraping/entry_scraper.py) -/

/-- The tbody list of the roster table, selector
div.table1.is-tableFixed__3rdadd > table > tbody. -/
def entryTbodys (soup : Node) : List Node :=
  ((soup.descElems.filter (fun d =>
      d.isTag "div" ∧ d.hasClass "table1" ∧ d.hasClass "is-tableFixed__3rdadd")).flatMap
    (fun d => d.childElems.filter (fun t => t.isTag "table"))).flatMap
    (fun t => t.childElems.filter (fun b => b.isTag "tbody"))

/-- The first row of a tbody, selector fragment tr:nth-child(1). -/
def tbodyTr1 (tb : Node) : Option Node :=
  tb.nthChildOfTag "tr" 1

/-- The lane cell, selector tr:nth-child(1) > td[class*='is-boatColor']. -/
def boatColorTd (tb : Node) : Option Node :=
  match tbodyTr1 tb with
  | some tr =>
    tr.childElems.find? (fun td =>
      td.isTag "td" ∧ strContainsSub td.classAttr "is-boatColor")
  | none => none

/-- The lane number recovered from the color-coded class token
is-boatColorN of a truthy lane cell; none when the cell is absent, falsy,
or carries no such token — the case the extractor skips with a warning. -/
def laneOf (tb : Node) : Option Nat :=
  match boatColorTd tb with
  | some td =>
    if td.pyTruthy then
      (List.range 6).findSome? (fun j =>
        if td.classes.contains ("is-boatColor" ++ toString (j + 1)) then some (j + 1)
        else none)
    else none
  | none => none

/-- The player cell, selector tr:nth-child(1) > td:nth-child(3). -/
def playerInfoTd (tb : Node) : Option Node :=
  (tbodyTr1 tb).bind (fun tr => tr.nthChildOfTag "td" 3)

/-- The k-th cell of the first row, selector
tr:nth-child(1) > td:nth-child(k), used for the four statistics cells. -/
def statTd (tb : Node) (k : Nat) : Option Node :=
  (tbodyTr1 tb).bind (fun tr => tr.nthChildOfTag "td" k)

/-- First descendant div of class is-fs11, selector div.is-fs11. -/
def firstDescDivFs11 (td : Node) : Option Node :=
  td.firstDesc (fun d => d.isTag "div" ∧ d.hasClass "is-fs11")

/-- All descendant divs of class is-fs11, as returned by select. -/
def descDivFs11 (td : Node) : List Node :=
  td.descElems.filter (fun d => d.isTag "div" ∧ d.hasClass "is-fs11")

/-- The grade span, selector div.is-fs11 > span. -/
def classSpan (td : Node) : Option Node :=
  ((descDivFs11 td).flatMap (fun d =>
    d.childElems.filter (fun s => s.isTag "span"))).head?

/-- The name anchor, selector div.is-fs18 > a. -/
def nameAnchor (td : Node) : Option Node :=
  ((td.descElems.filter (fun d => d.isTag "div" ∧ d.hasClass "is-fs18")).flatMap
    (fun d => d.childElems.filter (fun a => a.isTag "a"))).head?

/-- The registration number parsed from the numeric prefix of the first
is-fs11 div, pattern ^(\d+). -/
def playerIdOf (td : Node) : Option Int :=
  extractNumber (extractText (firstDescDivFs11 td) none) reCaretDigits 1 pyInt none

/-- The nonblank trimmed lines of a cell: decode_contents with newlines
removed, split on the void br separator, each piece stripped, blanks
dropped. -/
def cellLines (n : Node) : List String :=
  ((pySplit (pyStrip (pyReplace n.decodeContents "\n" "")) "<br/>").map pyStrip).filter
    (fun l => l ≠ "")

/-- One extracted roster record; every field beyond the lane is optional,
an absent dict key and a None value both collapsing to none. -/
structure EntryInfo where
  lane : Nat
  player_id : Option Int := none
  class_ : Option String := none
  name : Option String := none
  branch : Option String := none
  origin : Option String := none
  age : Option Int := none
  weight : Option Rat := none
  f_count : Option Int := none
  l_count : Option Int := none
  avg_st : Option Rat := none
  nationwide_win_rate : Option Rat := none
  nationwide_two_win_rate : Option Rat := none
  nationwide_three_win_rate : Option Rat := none
  local_win_rate : Option Rat := none
  local_two_win_rate : Option Rat := none
  local_three_win_rate : Option Rat := none
  motor_no : Option Int := none
  motor_two_win_rate : Option Rat := none
  motor_three_win_rate : Option Rat := none
  boat_no : Option Int := none
  boat_two_win_rate : Option Rat := none
  boat_three_win_rate : Option Rat := none
deriving DecidableEq, Repr

/-- The basic-information block of the player cell: registration number,
grade, name with full-width spaces removed, and the branch, origin, age
and weight decoded from the third is-fs11 div. -/
def applyPlayerBasic (e : EntryInfo) (td : Node) (pid : Option Int) : EntryInfo :=
  let e1 := { e with
    player_id := pid
    class_ := extractText (classSpan td) none
    name := (extractText (nameAnchor td) none).map (fun s => pyReplace s "　" "") }
  let divs := descDivFs11 td
  if divs.length > 2 then
    match divs.get? 2 with
    | some d =>
      let parts := cellLines d
      if parts.length ≥ 2 then
        let location_parts :=
          ((pySplit (parts.getD 0 "") "/").map pyStrip).filter (fun l => l ≠ "")
        let e2 := { e1 with
          branch := match location_parts.get? 0 with
            | some b => some b
            | none => e1.branch
          origin := match location_parts.get? 1 with
            | some o => some o
            | none => e1.origin }
        { e2 with
          age := extractNumber (some (parts.getD 1 "")) reAge 1 pyInt none
          weight := extractNumber (some (parts.getD 1 "")) reKg 1 pyFloat none }
      else e1
    | none => e1
  else e1

/-- The four statistics cells (columns four to eight): F count, L count
and average start from fixed line positions, then the nationwide, local,
motor and boat rate triples, each line independently optional. -/
def addStats (e0 : EntryInfo) (tb : Node) : EntryInfo :=
  let e1 :=
    match statTd tb 4 with
    | some td =>
      if td.pyTruthy then
        let lines := cellLines td
        let a := { e0 with
          f_count := if lines.length ≥ 1 then
              extractNumber (some (lines.getD 0 "")) reF 1 pyInt (some 0)
            else e0.f_count }
        let b := { a with
          l_count := if lines.length ≥ 2 then
              extractNumber (some (lines.getD 1 "")) reL 1 pyInt (some 0)
            else a.l_count }
        { b with
          avg_st := if lines.length ≥ 3 then
              extractNumber (some (lines.getD 2 "")) reNumDot 1 pyFloat none
            else b.avg_st }
      else e0
    | none => e0
  let e2 :=
    match statTd tb 5 with
    | some td =>
      if td.pyTruthy then
        let lines := cellLines td
        let a := { e1 with
          nationwide_win_rate := if lines.length ≥ 1 then
              extractNumber (some (lines.getD 0 "")) reNumDot 1 pyFloat none
            else e1.nationwide_win_rate }
        let b := { a with
          nationwide_two_win_rate := if lines.length ≥ 2 then
              extractNumber (some (lines.getD 1 "")) reNumDot 1 pyFloat none
            else a.nationwide_two_win_rate }
        { b with
          nationwide_three_win_rate := if lines.length ≥ 3 then
              extractNumber (some (lines.getD 2 "")) reNumDot 1 pyFloat none
            else b.nationwide_three_win_rate }
      else e1
    | none => e1
  let e3 :=
    match statTd tb 6 with
    | some td =>
      if td.pyTruthy then
        let lines := cellLines td
        let a := { e2 with
          local_win_rate := if lines.length ≥ 1 then
              extractNumber (some (lines.getD 0 "")) reNumDot 1 pyFloat none
            else e2.local_win_rate }
        let b := { a with
          local_two_win_rate := if lines.length ≥ 2 then
              extractNumber (some (lines.getD 1 "")) reNumDot 1 pyFloat none
            else a.local_two_win_rate }
        { b with
          local_three_win_rate := if lines.length ≥ 3 then
              extractNumber (some (lines.getD 2 "")) reNumDot 1 pyFloat none
            else b.local_three_win_rate }
      else e2
    | none => e2
  let e4 :=
    match statTd tb 7 with
    | some td =>
      if td.pyTruthy then
        let lines := cellLines td
        let a := { e3 with
          motor_no := if lines.length ≥ 1 then
              extractNumber (some (lines.getD 0 "")) reDigits 1 pyInt none
            else e3.motor_no }
        let b := { a with
          motor_two_win_rate := if lines.length ≥ 2 then
              extractNumber (some (lines.getD 1 "")) reNumDot 1 pyFloat none
            else a.motor_two_win_rate }
        { b with
          motor_three_win_rate := if lines.length ≥ 3 then
              extractNumber (some (lines.getD 2 "")) reNumDot 1 pyFloat none
            else b.motor_three_win_rate }
      else e3
    | none => e3
  match statTd tb 8 with
  | some td =>
    if td.pyTruthy then
      let lines := cellLines td
      let a := { e4 with
        boat_no := if lines.length ≥ 1 then
            extractNumber (some (lines.getD 0 "")) reDigits 1 pyInt none
          else e4.boat_no }
      let b := { a with
        boat_two_win_rate := if lines.length ≥ 2 then
            extractNumber (some (lines.getD 1 "")) reNumDot 1 pyFloat none
          else a.boat_two_win_rate }
      { b with
        boat_three_win_rate := if lines.length ≥ 3 then
            extractNumber (some (lines.getD 2 "")) reNumDot 1 pyFloat none
          else b.boat_three_win_rate }
    else e4
  | none => e4

/-- Extraction of one roster tbody: none when the lane identity is
missing, or when the player cell is truthy but its registration number is
not recoverable — the two continue statements of the loop; the statistics
blocks run whether or not the player cell was present. -/
def extractEntry (tb : Node) : Option EntryInfo :=
  match laneOf tb with
  | none => none
  | some lane =>
    let base : EntryInfo := { lane := lane }
    let afterPlayer : Option EntryInfo :=
      match playerInfoTd tb with
      | some td =>
        if td.pyTruthy then
          let pid := playerIdOf td
          if truthyI pid then some (applyPlayerBasic base td pid) else none
        else some base
      | none => some base
    afterPlayer.map (fun e => addStats e tb)

/-- The warnings one roster tbody emits: one for a missing lane identity,
one for a truthy player cell without a recoverable registration number. -/
def tbodyLog (tb : Node) : List LogMsg :=
  match laneOf tb with
  | none => [⟨.warning, "枠番が取得できませんでした。スキップします。"⟩]
  | some _ =>
    match playerInfoTd tb with
    | some td =>
      if td.pyTruthy ∧ ¬truthyI (playerIdOf td) then
        [⟨.warning, "登録番号が取得できませんでした。スキップします。"⟩]
      else []
    | none => []

/-- Embedding of extract_race_entries_info: per-tbody extraction with the
skip policy above, a warning when the table is missing, and a warning when
the recovered lane count differs from six. -/
def extract_race_entries_info (soup : Node) : List EntryInfo × List LogMsg :=
  let tbs := entryTbodys soup
  if tbs.isEmpty then ([], [⟨.warning, "選手情報テーブルが見つかりませんでした。"⟩])
  else
    let entries := tbs.filterMap extractEntry
    let logs := tbs.flatMap tbodyLog
    let countLog : List LogMsg :=
      if entries.length ≠ 6 then
        [⟨.warning, "抽出された選手情報が6名ではありません。HTML構造を確認してください。"⟩]
      else []
    (entries, logs ++ countLog)

/-! ## Result-page payout extractor (scraping/result_scraper.py) -/

/-- The payout table, selector
div.grid.is-type2.h-clear:not(.h-mt10) table.is-w495. -/
def findPayoutTable (soup : Node) : Option Node :=
  ((soup.descElems.filter (fun d =>
      d.isTag "div" ∧ d.hasClass "grid" ∧ d.hasClass "is-type2" ∧
        d.hasClass "h-clear" ∧ ¬d.hasClass "h-mt10")).flatMap
    (fun d => d.descElems.filter (fun t => t.isTag "table" ∧ t.hasClass "is-w495"))).head?

/-- The bet-type cell of a payout tbody, selector
tr:nth-child(1) > td:nth-child(1). -/
def betTypeTd (tb : Node) : Option Node :=
  (tbodyTr1 tb).bind (fun tr => tr.nthChildOfTag "td" 1)

/-- The carry-forward transition of the bet-type label: a truthy
row-spanning cell installs its extracted text, otherwise a truthy cell
with extractable text installs that text, otherwise the previous label is
kept. -/
def betTypeUpdate (cur : Option String) (tb : Node) : Option String :=
  match betTypeTd tb with
  | some td =>
    if td.pyTruthy ∧ td.hasPyAttr "rowspan" then extractText (some td) none
    else if td.pyTruthy ∧ (extractText (some td) none).isSome then
      extractText (some td) none
    else cur
  | none => cur

/-- The structural marker separating payout tbodys from header tbodys,
selector td span.numberSet1_number. -/
def hasNumberSetMarker (tb : Node) : Bool :=
  tb.descElems.any (fun td =>
    td.isTag "td" ∧ td.descElems.any (fun sp =>
      sp.isTag "span" ∧ sp.hasClass "numberSet1_number"))

/-- The rows of a payout tbody, selector tr. -/
def rowsOf (tb : Node) : List Node :=
  tb.descElems.filter (fun r => r.isTag "tr")

/-- One payout entry: boat combination, amount and optional popularity
rank. -/
structure PayoutInfo where
  boats : List Int
  payout : Option Int
  popularity : Option Int
deriving DecidableEq, Repr

/-- The boat-number spans of a combination cell, selector
div.numberSet1_row > span.numberSet1_number. -/
def boatSpans (td : Node) : List Node :=
  (td.descElems.filter (fun d => d.isTag "div" ∧ d.hasClass "numberSet1_row")).flatMap
    (fun d => d.childElems.filter (fun sp =>
      sp.isTag "span" ∧ sp.hasClass "numberSet1_number"))

/-- A boat number from one span: its text when parseable, else the
is-typeN class token fallback. -/
def boatOfSpan (sp : Node) : Option Int :=
  match extractNumber (extractText (some sp) none) reDigits 1 pyInt none with
  | some n => some n
  | none =>
    (List.range 6).findSome? (fun j =>
      if sp.classes.contains ("is-type" ++ toString (j + 1)) then some ((j : Int) + 1)
      else none)

/-- The boat combination of a row, from the second cell. -/
def boatsOf (td : Option Node) : List Int :=
  match td with
  | some t => (boatSpans t).filterMap boatOfSpan
  | none => []

/-- One payout row: none when no boat number is recoverable (the silent
skip); otherwise the combination with the parsed amount and popularity. -/
def payoutRowInfo (row : Node) : Option PayoutInfo :=
  let boats := boatsOf (row.nthChildOfTag "td" 2)
  if boats.isEmpty then none
  else
    let payout_td := row.nthChildOfTag "td" 3
    let payout_val := extractText
      (payout_td.bind (fun td =>
        td.firstDesc (fun sp => sp.isTag "span" ∧ sp.hasClass "is-payout1"))) none
    let payout := extractNumber payout_val reCommaDigits 1 intCommaStripped none
    let popularity :=
      extractNumber (extractText (row.nthChildOfTag "td" 4) none) reDigits 1 pyInt none
    some ⟨boats, payout, popularity⟩

/-- The emitted entries of a row list: rows without a recoverable amount
are dropped. -/
def rowItems (rows : List Node) : List PayoutInfo :=
  rows.filterMap (fun r =>
    match payoutRowInfo r with
    | some pi => if pi.payout.isSome then some pi else none
    | none => none)

/-- The warnings of a row list: one per row whose combination was read but
whose amount was not. -/
def rowLogs (rows : List Node) : List LogMsg :=
  rows.flatMap (fun r =>
    match payoutRowInfo r with
    | some pi =>
      if pi.payout.isSome then []
      else [⟨.warning, "払戻金が取得できなかったためスキップ"⟩]
    | none => [])

/-- Appending entries under a bet-type key of the insertion-ordered
dict, the key being created first when absent. -/
def addToKey (d : List (String × List PayoutInfo)) (k : String)
    (items : List PayoutInfo) : List (String × List PayoutInfo) :=
  if (d.find? (fun kv => kv.1 == k)).isSome then
    d.map (fun kv => if kv.1 == k then (kv.1, kv.2 ++ items) else kv)
  else d ++ [(k, items)]

/-- The fold state of the payout loop: the carried bet-type label, the
accumulated dict and the emitted log. -/
structure PStat where
  cur : Option String
  data : List (String × List PayoutInfo)
  log : List LogMsg

/-- One iteration of the payout loop: update the carried label, skip the
tbody when no truthy label is available or the structural marker is
absent, otherwise append the tbody rows under the label. -/
def payoutStep (st : PStat) (tb : Node) : PStat :=
  let cur1 := betTypeUpdate st.cur tb
  if ¬truthyS cur1 then { st with cur := cur1 }
  else if ¬hasNumberSetMarker tb then { st with cur := cur1 }
  else
    let rows := rowsOf tb
    { cur := cur1
      data := addToKey st.data (cur1.getD "") (rowItems rows)
      log := st.log ++ rowLogs rows }

/-- The payout loop over the tbody list. -/
def extractPayoutsTbodys (tbs : List Node) : PStat :=
  tbs.foldl payoutStep ⟨none, [], []⟩

/-- Embedding of extract_payouts: locate the payout table, then run the
carry-forward loop over its tbodys. -/
def extract_payouts (soup : Node) : List (String × List PayoutInfo) × List LogMsg :=
  match findPayoutTable soup with
  | none => ([], [⟨.warning, "払戻金テーブルが見つかりませんでした。"⟩])
  | some table =>
    let tbs := table.descElems.filter (fun b => b.isTag "tbody")
    let fin := extractPayoutsTbodys tbs
    (fin.data, fin.log)

/-! Specification-side rendering of the carry-forward rule, for comparison
with the loop above. -/

/-- Modelled from the spec: each row group is paired with the most recent
bet-type label, the label cell of a group applying to it and to all
subsequent groups until a new label cell appears. -/
def carryLabels (cur : Option String) : List Node → List (Option String × Node)
  | [] => []
  | tb :: rest =>
    let c := betTypeUpdate cur tb
    (c, tb) :: carryLabels c rest

/-- Modelled from the spec: a labelled row group emits its rows under its
assigned label; a group whose assigned label is not truthy — in particular
any group before the first label — emits nothing. -/
def emitStep (st : List (String × List PayoutInfo) × List LogMsg)
    (p : Option String × Node) : List (String × List PayoutInfo) × List LogMsg :=
  if truthyS p.1 ∧ hasNumberSetMarker p.2 then
    (addToKey st.1 (p.1.getD "") (rowItems (rowsOf p.2)), st.2 ++ rowLogs (rowsOf p.2))
  else st

/-- Modelled from the spec: the payout map obtained by first assigning
each row group its carried label and then emitting each group
independently. -/
def specPayouts (tbs : List Node) : List (String × List PayoutInfo) × List LogMsg :=
  (carryLabels none tbs).foldl emitStep ([], [])

/-- A tbody with no label cell at all: its bet-type cell is absent, falsy,
or neither row-spanning nor carrying extractable text, so the transition
keeps the previous label whatever it was. -/
def noLabelCell (tb : Node) : Bool :=
  match betTypeTd tb with
  | some td => ¬(td.pyTruthy ∧ (td.hasPyAttr "rowspan" ∨ (extractText (some td) none).isSome))
  | none => true

/-! ## Support for the season-term claim -/

/-- The year and term the specification assigns to a two-digit year and a
month: April to September is term one of that year, October to December
term two of that year, January to March term two of the previous year. -/
def claimSeason (yy mm : Nat) : Nat × Nat :=
  if 4 ≤ mm ∧ mm ≤ 9 then (2000 + yy, 1)
  else if 10 ≤ mm then (2000 + yy, 2)
  else (2000 + yy - 1, 2)

/-! ## Concrete fixtures for witnesses and counterexamples -/

/-- A roster tbody with a complete lane: color-coded first cell, filler
second cell, player cell whose is-fs11 div starts with the registration
number. -/
def demoGoodTbody : Node :=
  .elem "tbody" [] [.elem "tr" []
    [.elem "td" [("class", "is-boatColor1 is-fs14")] [.text "1"],
     .elem "td" [] [.text "x"],
     .elem "td" [] [.elem "div" [("class", "is-fs11")] [.text "4444 / A1"]]]]

/-- A roster tbody whose first cell carries no lane color class. -/
def demoNoLaneTbody : Node :=
  .elem "tbody" [] [.elem "tr" [] [.elem "td" [] [.text "no lane"]]]

/-- An entry-sheet document with one complete lane row and one row missing
the lane identity. -/
def demoEntrySoup : Node :=
  .elem "html" []
    [.elem "div" [("class", "table1 is-tableFixed__3rdadd")]
      [.elem "table" [] [demoGoodTbody, demoNoLaneTbody]]]

/-- A payout tbody labelled with a row-spanning bet-type cell and one
complete payout row. -/
def demoPayoutTbody : Node :=
  .elem "tbody" [] [.elem "tr" []
    [.elem "td" [("rowspan", "1")] [.text "三連単"],
     .elem "td" [] [.elem "div" [("class", "numberSet1_row")]
       [.elem "span" [("class", "numberSet1_number")] [.text "1"],
        .elem "span" [("class", "numberSet1_number")] [.text "2"],
        .elem "span" [("class", "numberSet1_number")] [.text "3"]]],
     .elem "td" [] [.elem "span" [("class", "is-payout1")] [.text "¥5,300"]],
     .elem "td" [] [.text "22"]]]

/-- A payout tbody with no bet-type label cell content and no payout
rows. -/
def demoUnlabelledTbody : Node :=
  .elem "tbody" [] [.elem "tr" [] [.elem "td" [] []]]

/-- A result-page document whose payout table holds the labelled payout
tbody, so extraction yields a nonempty payout map. -/
def demoResultSoup : Node :=
  .elem "html" []
    [.elem "div" [("class", "grid is-type2 h-clear")]
      [.elem "table" [("class", "is-w495")] [demoPayoutTbody]]]

/-- An incoming complete payout dict fixture. -/
def demoPayoutData : PayoutData where
  bet_type := some "単勝"
  combination := some "1"
  amount := some 100
  popularity := none

/-- A second incoming complete payout dict fixture. -/
def demoPayoutData2 : PayoutData where
  bet_type := some "三連単"
  combination := some "1-2-3"
  amount := some 5300
  popularity := some 22

/-- A stored payout row of race one, the fixture for the replacement
claims. -/
def demoPayoutRow : PayoutRow where
  race_id := 1
  bet_type := some "単勝"
  combination := some "1"
  amount := some 100
  popularity := none

/-- A stored player row, the fixture for the partial-update claims. -/
def demoPlayerRow : PlayerRow where
  player_id := 1
  name := some "A"
  branch := some "X"
  hometown := none
  birth_date := none

/-- An incoming player dict for the stored fixture player carrying the
same name but a different branch. -/
def demoPlayerData : PlayerData where
  player_id := some 1
  name := some "A"
  branch := some "Y"
  origin := none
  hometown := none
  birth_date := none

/-- A complete race payload fixture. -/
def demoRaceData : RaceData :=
  { hd := some "20240310"
    jcd := some "01"
    rno := some 12
    race_name := some "スポーツ報知杯"
    distance := some 1800
    deadline := none
    weather := none
    wind_speed := none
    wind_dir := none
    water_temp := none
    wave_height := none
    season_year := some 2023
    season_term := some 2 }

/-- A complete entry payload fixture supplying a few update fields. -/
def demoEntryData : EntryData :=
  { emptyEntryData with
    race_id := some 1
    lane := some 3
    player_id := some 4444
    age := some (some 32)
    avg_st := some (some (mkRat 15 100))
    parts_changed := some (some (.list ["リング", "キャリボ"])) }

/-! ## Helper lemmas on lists -/

theorem length_filterMap_eq_countP {α β : Type} (f : α → Option β) (l : List α) :
    (l.filterMap f).length = l.countP (fun a => (f a).isSome) := by
  induction l with
  | nil => rfl
  | cons x xs ih =>
    cases h : f x <;>
      simp [List.filterMap_cons, h, List.countP_cons, ih]

theorem filter_not_filter {α : Type} (p : α → Bool) (l : List α) :
    (l.filter (fun a => ¬p a)).filter p = [] := by
  induction l with
  | nil => rfl
  | cons x xs ih =>
    by_cases h : p x <;> simp [List.filter_cons, h, ih]

theorem filter_not_idem {α : Type} (p : α → Bool) (l : List α) :
    (l.filter (fun a => ¬p a)).filter (fun a => ¬p a) = l.filter (fun a => ¬p a) := by
  induction l with
  | nil => rfl
  | cons x xs ih =>
    by_cases h : p x <;> simp [List.filter_cons, h, ih]

theorem find?_updateFirst_self {α : Type} (p : α → Bool) (y : α) (hy : p y = true)
    (l : List α) (x : α) (hf : l.find? p = some x) :
    (updateFirst p y l).find? p = some y := by
  induction l with
  | nil => simp at hf
  | cons a t ih =>
    by_cases ha : p a
    · simp [updateFirst, ha, List.find?_cons_of_pos, hy]
    · rw [List.find?_cons_of_neg _ ha] at hf
      simp [updateFirst, ha, List.find?_cons_of_neg, ih hf]

theorem countP_updateFirst {α : Type} (p : α → Bool) (y : α) (hy : p y = true)
    (l : List α) : (updateFirst p y l).countP p = l.countP p := by
  induction l with
  | nil => rfl
  | cons a t ih =>
    by_cases ha : p a
    · simp [updateFirst, ha, List.countP_cons, hy]
    · simp [updateFirst, ha, List.countP_cons, ih]

theorem updateFirst_idem {α : Type} (p : α → Bool) (y : α) (hy : p y = true)
    (l : List α) : updateFirst p y (updateFirst p y l) = updateFirst p y l := by
  induction l with
  | nil => rfl
  | cons a t ih =>
    by_cases ha : p a
    · simp [updateFirst, ha, hy]
    · simp [updateFirst, ha, ih]

theorem length_updateFirst {α : Type} (p : α → Bool) (y : α) (l : List α) :
    (updateFirst p y l).length = l.length := by
  induction l with
  | nil => rfl
  | cons a t ih =>
    by_cases ha : p a <;> simp [updateFirst, ha, ih]

theorem find?_append_of_none {α : Type} (p : α → Bool) (l1 l2 : List α)
    (h : l1.find? p = none) : (l1 ++ l2).find? p = l2.find? p := by
  induction l1 with
  | nil => rfl
  | cons a t ih =>
    by_cases ha : p a
    · rw [List.find?_cons_of_pos _ ha] at h; cases h
    · rw [List.find?_cons_of_neg _ ha] at h
      simp [List.find?_cons_of_neg, ha, ih h]

theorem truthyI_ne_none (o : Option Int) (h : truthyI o = true) : o ≠ none := by
  cases o with
  | none => simp [truthyI] at h
  | some v => simp

theorem countP_eq_one_of_found {α : Type} (p : α → Bool) (l : List α) (x : α)
    (hf : l.find? p = some x) (hle : l.countP p ≤ 1) : l.countP p = 1 := by
  have hx : p x = true := List.find?_some hf
  have hmem : x ∈ l := List.mem_of_find?_eq_some hf
  have : 0 < l.countP p := List.countP_pos_iff.mpr ⟨x, hmem, hx⟩
  omega

/-! ## Claim C10 -/

/-- C10: for every stored payout table and every race, create_payouts with
an empty incoming list returns an empty created list and leaves storage
completely unchanged — the delete-before-insert step is not performed on
an empty incoming set. -/
theorem create_payouts_empty_noop (s : List PayoutRow) (rid : Nat) :
    create_payouts s rid [] = ([], s) := rfl

/-! ## Claim C8 -/

/-- C8: the extraction utility on the three documented examples: the text
2.34 under the digits-and-dots pattern with the float converter gives the
rational 2.34; the sentinel marker resolves to None in extract-text, and
extract-number on that None with default None gives None; the text F2
under the F-count pattern with the int converter gives 2. -/
theorem extract_number_examples :
    extractNumber (some "2.34") reNumDot 1 pyFloat none = some (mkRat 234 100) ∧
    (extractText (some (.elem "span" [] [.text "---"])) none = none ∧
      extractNumber (extractText (some (.elem "span" [] [.text "---"])) none)
        reNumDot 1 pyFloat none = none) ∧
    extractNumber (some "F2") reF 1 pyInt none = some 2 := by
  refine ⟨by decide, ⟨by decide, by decide⟩, by decide⟩

/-! ## Claim C2 -/

/-- C2 counterexample: the claim quantifies over every second payout set
B, but for the empty B the second call returns early without deleting, so
storage keeps the rows of the first set A instead of the (empty) rows of
B. -/
theorem create_payouts_replacement_cex :
    (create_payouts ((create_payouts ([] : List PayoutRow) 1 [demoPayoutData]).2) 1
        ([] : List PayoutData)).2 = [mkPayoutRow 1 demoPayoutData] ∧
    [mkPayoutRow 1 demoPayoutData] ≠ ([] : List PayoutRow) := by
  refine ⟨rfl, by simp⟩

/-- C2 (amended): for every nonempty second payout set B, calling
create_payouts with A and then with B leaves the race with exactly the
rows built from the complete dicts of B — no residue of A — returns those
rows, and leaves the rows of other races untouched; the existing rows are
deleted before the new set is inserted within the same call. -/
theorem create_payouts_replacement (s : List PayoutRow) (rid : Nat)
    (A B : List PayoutData) (hB : B ≠ []) :
    ((create_payouts ((create_payouts s rid A).2) rid B).2.filter
        (fun p => p.race_id == rid) =
      B.filterMap (fun pd => if validPayoutData pd then some (mkPayoutRow rid pd) else none)) ∧
    ((create_payouts ((create_payouts s rid A).2) rid B).1 =
      B.filterMap (fun pd => if validPayoutData pd then some (mkPayoutRow rid pd) else none)) ∧
    ((create_payouts ((create_payouts s rid A).2) rid B).2.filter
        (fun p => ¬(p.race_id == rid)) =
      ((create_payouts s rid A).2).filter (fun p => ¬(p.race_id == rid))) := by
  have hBe : B.isEmpty = false := by cases B <;> simp_all
  set s1 := (create_payouts s rid A).2 with hs1
  have hcreated : ∀ x ∈ B.filterMap
      (fun pd => if validPayoutData pd then some (mkPayoutRow rid pd) else none),
      (x.race_id == rid) = true := by
    intro x hx
    rcases List.mem_filterMap.mp hx with ⟨pd, _, hpd⟩
    by_cases hv : validPayoutData pd
    · rw [if_pos hv] at hpd
      cases hpd
      simp [mkPayoutRow]
    · rw [if_neg hv] at hpd
      cases hpd
  refine ⟨?_, ?_, ?_⟩
  · simp only [create_payouts, hBe, Bool.false_eq_true, if_false]
    rw [List.filter_append, filter_not_filter]
    simp only [List.nil_append]
    exact List.filter_eq_self.mpr hcreated
  · simp [create_payouts, hBe]
  · simp only [create_payouts, hBe, Bool.false_eq_true, if_false]
    rw [List.filter_append, filter_not_idem]
    have : (B.filterMap
        (fun pd => if validPayoutData pd then some (mkPayoutRow rid pd) else none)).filter
        (fun p => ¬(p.race_id == rid)) = [] := by
      rw [List.filter_eq_nil_iff]
      intro x hx
      simp [hcreated x hx]
    rw [this, List.append_nil]

/-- C2 witness: the amended theorem applied to a concrete first set, a
concrete nonempty second set and the empty initial table. -/
theorem create_payouts_replacement_witness :
    (create_payouts ((create_payouts ([] : List PayoutRow) 1 [demoPayoutData]).2) 1
        [demoPayoutData2]).2.filter (fun p => p.race_id == 1) =
      [demoPayoutData2].filterMap
        (fun pd => if validPayoutData pd then some (mkPayoutRow 1 pd) else none) :=
  (create_payouts_replacement [] 1 [demoPayoutData] [demoPayoutData2] (by simp)).1

/-! ## Claim C6 -/

theorem mem_rowItems_payout (rows : List Node) (pi : PayoutInfo)
    (h : pi ∈ rowItems rows) : pi.payout ≠ none := by
  rcases List.mem_filterMap.mp h with ⟨r, _, hr⟩
  cases hri : payoutRowInfo r with
  | none => rw [hri] at hr; cases hr
  | some pi0 =>
    rw [hri] at hr
    dsimp only at hr
    by_cases hs : pi0.payout.isSome
    · rw [if_pos hs] at hr
      cases hr
      exact Option.ne_none_iff_isSome.mpr hs
    · rw [if_neg hs] at hr
      cases hr

theorem addToKey_payout_inv (d : List (String × List PayoutInfo)) (k : String)
    (items : List PayoutInfo)
    (hd : ∀ kv ∈ d, ∀ pi ∈ kv.2, pi.payout ≠ none)
    (hi : ∀ pi ∈ items, pi.payout ≠ none) :
    ∀ kv ∈ addToKey d k items, ∀ pi ∈ kv.2, pi.payout ≠ none := by
  intro kv hkv pi hpi
  unfold addToKey at hkv
  by_cases hf : (d.find? (fun kv => kv.1 == k)).isSome
  · rw [if_pos hf] at hkv
    rcases List.mem_map.mp hkv with ⟨kv0, hkv0, heq⟩
    by_cases hk : kv0.1 == k
    · rw [if_pos hk] at heq
      rw [← heq] at hpi
      rcases List.mem_append.mp hpi with hl | hr
      · exact hd kv0 hkv0 pi hl
      · exact hi pi hr
    · rw [if_neg hk] at heq
      rw [← heq] at hpi
      exact hd kv0 hkv0 pi hpi
  · rw [if_neg hf] at hkv
    rcases List.mem_append.mp hkv with hl | hr
    · exact hd kv hl pi hpi
    · rw [List.mem_singleton.mp hr] at hpi
      exact hi pi hpi

theorem payoutStep_payout_inv (st : PStat) (tb : Node)
    (h : ∀ kv ∈ st.data, ∀ pi ∈ kv.2, pi.payout ≠ none) :
    ∀ kv ∈ (payoutStep st tb).data, ∀ pi ∈ kv.2, pi.payout ≠ none := by
  intro kv hkv pi hpi
  dsimp only [payoutStep] at hkv
  split at hkv
  · exact h kv hkv pi hpi
  · split at hkv
    · exact h kv hkv pi hpi
    · exact addToKey_payout_inv st.data _ _ h
        (fun pi2 hpi2 => mem_rowItems_payout _ pi2 hpi2) kv hkv pi hpi

theorem foldl_payoutStep_payout_inv (tbs : List Node) (st : PStat)
    (h : ∀ kv ∈ st.data, ∀ pi ∈ kv.2, pi.payout ≠ none) :
    ∀ kv ∈ (List.foldl payoutStep st tbs).data, ∀ pi ∈ kv.2, pi.payout ≠ none := by
  induction tbs generalizing st with
  | nil => exact h
  | cons tb rest ih =>
    exact ih (payoutStep st tb) (payoutStep_payout_inv st tb h)

/-- C6: no payout record with an unknown amount is produced or stored —
every entry of every bet type returned by extract_payouts carries a
non-null amount (amount-less rows are dropped), and create_payouts skips
incoming dicts missing the bet type, combination or amount, so a payout
table whose rows all carry amounts still does after any call. -/
theorem payouts_never_null_amount :
    (∀ (soup : Node) (kv : String × List PayoutInfo) (pi : PayoutInfo),
        kv ∈ (extract_payouts soup).1 → pi ∈ kv.2 → pi.payout ≠ none) ∧
    (∀ (s : List PayoutRow) (rid : Nat) (pdl : List PayoutData),
        (∀ r ∈ s, r.amount ≠ none) →
        (∀ r ∈ (create_payouts s rid pdl).2, r.amount ≠ none) ∧
        (∀ r ∈ (create_payouts s rid pdl).1, r.amount ≠ none)) := by
  constructor
  · intro soup kv pi hkv hpi
    unfold extract_payouts at hkv
    cases hft : findPayoutTable soup with
    | none => rw [hft] at hkv; simp at hkv
    | some table =>
      rw [hft] at hkv
      simp only at hkv
      exact foldl_payoutStep_payout_inv _ ⟨none, [], []⟩ (by simp) kv hkv pi hpi
  · intro s rid pdl hs
    by_cases hp : pdl.isEmpty
    · have : pdl = [] := List.isEmpty_iff.mp hp
      subst this
      exact ⟨fun r hr => hs r hr, by simp [create_payouts]⟩
    · have hpe : pdl.isEmpty = false := by simp_all
      have hcreated : ∀ r ∈ pdl.filterMap
          (fun pd => if validPayoutData pd then some (mkPayoutRow rid pd) else none),
          r.amount ≠ none := by
        intro r hr
        rcases List.mem_filterMap.mp hr with ⟨pd, _, hpd⟩
        by_cases hv : validPayoutData pd
        · rw [if_pos hv] at hpd
          cases hpd
          have : truthyI pd.amount = true := by
            simp [validPayoutData] at hv
            exact hv.2.2
          exact truthyI_ne_none pd.amount this
        · rw [if_neg hv] at hpd
          cases hpd
      constructor
      · intro r hr
        simp only [create_payouts, hpe, Bool.false_eq_true, if_false] at hr
        rcases List.mem_append.mp hr with hl | hrr
        · exact hs r (List.mem_of_mem_filter hl)
        · exact hcreated r hrr
      · intro r hr
        simp only [create_payouts, hpe, Bool.false_eq_true, if_false] at hr
        exact hcreated r hr

/-- C6 witness: both parts at concrete inputs — the trifecta entry the
concrete result-page document really extracts (both membership hypotheses
discharged by evaluation), and a table with one sound row under a complete
incoming payout list. -/
theorem payouts_never_null_amount_witness :
    (PayoutInfo.mk [1, 2, 3] (some 5300) (some 22)).payout ≠ none ∧
    (∀ r ∈ (create_payouts [demoPayoutRow] 1 [demoPayoutData2]).2, r.amount ≠ none) :=
  ⟨payouts_never_null_amount.1 demoResultSoup
      ("三連単", [PayoutInfo.mk [1, 2, 3] (some 5300) (some 22)])
      (PayoutInfo.mk [1, 2, 3] (some 5300) (some 22)) (by decide) (by decide),
    (payouts_never_null_amount.2 [demoPayoutRow] 1 [demoPayoutData2]
      (by intro r hr; simp at hr; rw [hr]; simp [demoPayoutRow])).1⟩

/-! ## Claim C7 -/

theorem betTypeUpdate_of_noLabel (cur : Option String) (tb : Node)
    (h : noLabelCell tb = true) : betTypeUpdate cur tb = cur := by
  unfold noLabelCell at h
  unfold betTypeUpdate
  cases htd : betTypeTd tb with
  | none => rfl
  | some td =>
    rw [htd] at h
    simp only [decide_eq_true_eq] at h
    dsimp only
    by_cases h1 : td.pyTruthy = true
    · have h2 : ¬(td.hasPyAttr "rowspan" = true ∨ (extractText (some td) none).isSome = true) :=
        fun hc => h ⟨h1, hc⟩
      rw [if_neg (fun hc => h2 (Or.inl hc.2)), if_neg (fun hc => h2 (Or.inr hc.2))]
    · rw [if_neg (fun hc => h1 hc.1), if_neg (fun hc => h1 hc.1)]

theorem foldl_payoutStep_spec (tbs : List Node) :
    ∀ (cur : Option String) (d : List (String × List PayoutInfo)) (lg : List LogMsg),
    ((List.foldl payoutStep ⟨cur, d, lg⟩ tbs).data,
      (List.foldl payoutStep ⟨cur, d, lg⟩ tbs).log) =
      List.foldl emitStep (d, lg) (carryLabels cur tbs) := by
  induction tbs with
  | nil => intro cur d lg; rfl
  | cons tb rest ih =>
    intro cur d lg
    rw [List.foldl_cons, carryLabels, List.foldl_cons]
    dsimp only [payoutStep, emitStep]
    by_cases h1 : truthyS (betTypeUpdate cur tb) = true
    · by_cases h2 : hasNumberSetMarker tb = true
      · rw [if_neg (by simp [h1]), if_neg (by simp [h2]), if_pos ⟨h1, h2⟩]
        exact ih (betTypeUpdate cur tb) _ _
      · rw [if_neg (by simp [h1]), if_pos (by simp [h2]),
          if_neg (fun hc => h2 hc.2)]
        exact ih (betTypeUpdate cur tb) d lg
    · rw [if_pos (by simp [h1]), if_neg (fun hc => h1 hc.1)]
      exact ih (betTypeUpdate cur tb) d lg

/-- C7: the bet-type label association of the payout extractor follows the
carry-forward rule — the loop state equals the specification that assigns
every row group the most recent label and emits each group under it, with
groups before any label emitting nothing; consequently a prefix of
label-free row groups contributes nothing at all. -/
theorem payout_carry_forward :
    (∀ tbs : List Node,
      ((extractPayoutsTbodys tbs).data, (extractPayoutsTbodys tbs).log) =
        specPayouts tbs) ∧
    (∀ tbs1 tbs2 : List Node, (∀ tb ∈ tbs1, noLabelCell tb = true) →
      extractPayoutsTbodys (tbs1 ++ tbs2) = extractPayoutsTbodys tbs2) := by
  constructor
  · intro tbs
    exact foldl_payoutStep_spec tbs none [] []
  · intro tbs1 tbs2 h
    induction tbs1 with
    | nil => rfl
    | cons tb t ih =>
      have hcur : betTypeUpdate none tb = none :=
        betTypeUpdate_of_noLabel none tb (h tb (List.mem_cons_self tb t))
      have hstep : payoutStep ⟨none, [], []⟩ tb = ⟨none, [], []⟩ := by
        dsimp only [payoutStep]
        rw [hcur]
        rfl
      calc extractPayoutsTbodys ((tb :: t) ++ tbs2)
          = List.foldl payoutStep (payoutStep ⟨none, [], []⟩ tb) (t ++ tbs2) := rfl
        _ = List.foldl payoutStep ⟨none, [], []⟩ (t ++ tbs2) := by rw [hstep]
        _ = extractPayoutsTbodys tbs2 := ih (fun x hx => h x (List.mem_cons_of_mem tb hx))

/-- C7 witness: the refinement at the concrete two-group document, and the
prefix fact with a concrete label-free group before a labelled one. -/
theorem payout_carry_forward_witness :
    ((extractPayoutsTbodys [demoUnlabelledTbody, demoPayoutTbody]).data,
      (extractPayoutsTbodys [demoUnlabelledTbody, demoPayoutTbody]).log) =
        specPayouts [demoUnlabelledTbody, demoPayoutTbody] ∧
    extractPayoutsTbodys ([demoUnlabelledTbody] ++ [demoPayoutTbody]) =
      extractPayoutsTbodys [demoPayoutTbody] :=
  ⟨payout_carry_forward.1 [demoUnlabelledTbody, demoPayoutTbody],
    payout_carry_forward.2 [demoUnlabelledTbody] [demoPayoutTbody] (by decide)⟩

/-! ## Claim C3 -/

/-- C3: no exception escapes the field-extraction utilities, every
failure mode degrading to the supplied default — an absent or falsy node,
an empty or sentinel text, a pattern non-match, an out-of-range capture
group and a converter failure (each possible exception constructor being
caught) all return the default, and only a successful conversion returns a
value. -/
theorem extraction_utilities_degrade_to_default :
    (∀ d : Option String, extractText none d = d) ∧
    (∀ (el : Node) (d : Option String), el.pyTruthy = false →
      extractText (some el) d = d) ∧
    (∀ (el : Node) (d : Option String), el.pyTruthy = true →
      (pyStrip el.textContent = "" ∨ pyStrip el.textContent = "---") →
      extractText (some el) d = d) ∧
    (∀ (V : Type) (pat : RE) (g : Nat) (conv : String → Except PyExc V) (d : Option V),
      extractNumber none pat g conv d = d) ∧
    (∀ (V : Type) (pat : RE) (g : Nat) (conv : String → Except PyExc V) (d : Option V),
      extractNumber (some "") pat g conv d = d) ∧
    (∀ (V : Type) (t : String) (pat : RE) (g : Nat) (conv : String → Except PyExc V)
        (d : Option V), re_search pat t = none → extractNumber (some t) pat g conv d = d) ∧
    (∀ (V : Type) (t : String) (pat : RE) (g : Nat) (conv : String → Except PyExc V)
        (d : Option V) (m : REMatch) (e : PyExc), re_search pat t = some m →
      (matchGroup m g).bind conv = .error e → extractNumber (some t) pat g conv d = d) ∧
    (∀ (V : Type) (t : String) (pat : RE) (g : Nat) (conv : String → Except PyExc V)
        (d : Option V) (m : REMatch) (v : V), t ≠ "" → re_search pat t = some m →
      (matchGroup m g).bind conv = .ok v → extractNumber (some t) pat g conv d = some v) := by
  refine ⟨fun d => rfl, ?_, ?_, fun V pat g conv d => rfl, ?_, ?_, ?_, ?_⟩
  · intro el d h
    unfold extractText
    dsimp only
    rw [if_neg (by simp [h])]
  · intro el d h hse
    unfold extractText
    dsimp only
    rw [if_pos h]
    rcases hse with hse | hse <;> rw [if_neg (by simp [hse])]
  · intro V pat g conv d
    unfold extractNumber
    dsimp only
    rw [if_neg (by simp)]
  · intro V t pat g conv d hns
    unfold extractNumber
    dsimp only
    by_cases ht : t = ""
    · rw [if_neg (by simp [ht])]
    · rw [if_pos (by simp [ht]), hns]
  · intro V t pat g conv d m e hsm hbe
    unfold extractNumber
    dsimp only
    by_cases ht : t = ""
    · rw [if_neg (by simp [ht])]
    · rw [if_pos (by simp [ht]), hsm]
      dsimp only
      rw [hbe]
      cases e <;> rfl
  · intro V t pat g conv d m v ht hsm hbv
    unfold extractNumber
    dsimp only
    rw [if_pos (by simp [ht]), hsm]
    dsimp only
    rw [hbv]

/-- C3 witness: the degradation cases at concrete inputs — an absent node,
a falsy node, a sentinel text, a None text, a non-matching pattern, an
out-of-range group (IndexError caught) and a failing conversion
(ValueError caught), plus one successful extraction. -/
theorem extraction_utilities_degrade_witness :
    extractText none (some "dflt") = some "dflt" ∧
    extractText (some (.elem "td" [] [])) (some "dflt") = some "dflt" ∧
    extractText (some (.elem "td" [] [.text " --- "])) none = none ∧
    extractNumber none reDigits 1 pyInt (some 7) = some 7 ∧
    extractNumber (some "abc") reDigits 1 pyInt (some 7) = some 7 ∧
    extractNumber (some "a12") reDigits 5 pyInt none = none ∧
    extractNumber (some "..") reNumDot 1 pyFloat none = none ∧
    extractNumber (some "a12") reDigits 1 pyInt none = some 12 := by
  refine ⟨extraction_utilities_degrade_to_default.1 (some "dflt"),
    extraction_utilities_degrade_to_default.2.1 (.elem "td" [] []) (some "dflt") (by decide),
    extraction_utilities_degrade_to_default.2.2.1 (.elem "td" [] [.text " --- "]) none
      (by decide) (by right; decide),
    extraction_utilities_degrade_to_default.2.2.2.1 Int reDigits 1 pyInt (some 7),
    extraction_utilities_degrade_to_default.2.2.2.2.2.1 Int "abc" reDigits 1 pyInt (some 7)
      (by decide),
    extraction_utilities_degrade_to_default.2.2.2.2.2.2.1 Int "a12" reDigits 5 pyInt none
      ⟨"12", ["12"]⟩ .indexError (by decide) (by decide),
    extraction_utilities_degrade_to_default.2.2.2.2.2.2.1 Rat ".." reNumDot 1 pyFloat none
      ⟨"..", [".."]⟩ .valueError (by decide) ?_,
    extraction_utilities_degrade_to_default.2.2.2.2.2.2.2 Int "a12" reDigits 1 pyInt none
      ⟨"12", ["12"]⟩ 12 (by decide) (by decide) (by decide)⟩
  decide

/-! ## Claim C5 -/

theorem countP_congr_mem {α : Type} (l : List α) (p q : α → Bool)
    (h : ∀ a ∈ l, p a = q a) : l.countP p = l.countP q := by
  induction l with
  | nil => rfl
  | cons x xs ih =>
    rw [List.countP_cons, List.countP_cons, h x (List.mem_cons_self x xs),
      ih (fun a ha => h a (List.mem_cons_of_mem x ha))]

theorem extractEntry_none_of_no_lane (tb : Node) (h : laneOf tb = none) :
    extractEntry tb = none := by
  unfold extractEntry
  rw [h]

/-- C5: on an entry sheet (at most six roster rows) where some row lacks
the lane-identity element and every lane-bearing row is otherwise
extractable, the extractor — a total function, so it never raises — skips
exactly the affected rows: it returns one record per lane-bearing row,
strictly fewer than six, and emits a warning-level record about the
shortfall. -/
theorem entry_extractor_missing_lane (soup : Node)
    (h6 : (entryTbodys soup).length ≤ 6)
    (hmiss : ∃ tb ∈ entryTbodys soup, laneOf tb = none)
    (hok : ∀ tb ∈ entryTbodys soup, laneOf tb ≠ none → extractEntry tb ≠ none) :
    (extract_race_entries_info soup).1 = (entryTbodys soup).filterMap extractEntry ∧
    (extract_race_entries_info soup).1.length =
      (entryTbodys soup).countP (fun tb => (laneOf tb).isSome) ∧
    (extract_race_entries_info soup).1.length < 6 ∧
    LogMsg.mk .warning "抽出された選手情報が6名ではありません。HTML構造を確認してください。" ∈
      (extract_race_entries_info soup).2 := by
  rcases hmiss with ⟨tb0, htb0, hlan0⟩
  have htbs : entryTbodys soup ≠ [] := List.ne_nil_of_mem htb0
  have hE : (entryTbodys soup).isEmpty = false := by
    simp [List.isEmpty_iff, htbs]
  have hcnt : ((entryTbodys soup).filterMap extractEntry).length =
      (entryTbodys soup).countP (fun tb => (laneOf tb).isSome) := by
    rw [length_filterMap_eq_countP]
    apply countP_congr_mem
    intro a ha
    by_cases hl : laneOf a = none
    · rw [extractEntry_none_of_no_lane a hl, hl]
      rfl
    · have h1 : extractEntry a ≠ none := hok a ha hl
      rw [Option.ne_none_iff_isSome.mp h1, Option.ne_none_iff_isSome.mp hl]
  have hlt : (entryTbodys soup).countP (fun tb => (laneOf tb).isSome) < 6 := by
    have hle : (entryTbodys soup).countP (fun tb => (laneOf tb).isSome) ≤
        (entryTbodys soup).length := List.countP_le_length _
    have hne : (entryTbodys soup).countP (fun tb => (laneOf tb).isSome) ≠
        (entryTbodys soup).length := by
      intro he
      have := List.countP_eq_length.mp he tb0 htb0
      rw [hlan0] at this
      cases this
    omega
  have hlen : ((entryTbodys soup).filterMap extractEntry).length ≠ 6 := by omega
  have hres1 : (extract_race_entries_info soup).1 =
      (entryTbodys soup).filterMap extractEntry := by
    unfold extract_race_entries_info
    dsimp only
    rw [hE]
    simp only [Bool.false_eq_true, if_false]
  have hres2 : (extract_race_entries_info soup).2 =
      (entryTbodys soup).flatMap tbodyLog ++
        [⟨.warning, "抽出された選手情報が6名ではありません。HTML構造を確認してください。"⟩] := by
    unfold extract_race_entries_info
    dsimp only
    rw [hE]
    simp only [Bool.false_eq_true, if_false]
    rw [if_pos hlen]
  refine ⟨hres1, ?_, ?_, ?_⟩
  · rw [hres1, hcnt]
  · rw [hres1]
    omega
  · rw [hres2]
    exact List.mem_append_right _ (List.mem_singleton.mpr rfl)

/-- C5 witness: the theorem at a concrete two-row sheet, one complete row
and one row without the lane-identity element. -/
theorem entry_extractor_missing_lane_witness :
    (extract_race_entries_info demoEntrySoup).1 =
      (entryTbodys demoEntrySoup).filterMap extractEntry ∧
    (extract_race_entries_info demoEntrySoup).1.length =
      (entryTbodys demoEntrySoup).countP (fun tb => (laneOf tb).isSome) ∧
    (extract_race_entries_info demoEntrySoup).1.length < 6 ∧
    LogMsg.mk .warning "抽出された選手情報が6名ではありません。HTML構造を確認してください。" ∈
      (extract_race_entries_info demoEntrySoup).2 :=
  entry_extractor_missing_lane demoEntrySoup (by decide) (by decide) (by decide)

/-! ## Claim C1 -/

theorem updF_idem {α : Type} (d : Option (Option α)) (x : Option α) :
    updF d (updF d x) = updF d x := by
  cases d <;> rfl

theorem updClass_idem (ed : EntryData) (x : Option String) :
    updClass ed (updClass ed x) = updClass ed x := by
  by_cases h : ed.class_.isSome ∨ ed.classAlt.isSome <;> simp [updClass, h]

theorem updParts_idem (d : Option (Option PartsVal)) (x : Option String) :
    updParts d (updParts d x) = updParts d x := by
  cases d with
  | none => rfl
  | some v =>
    cases v with
    | none => rfl
    | some pv => cases pv <;> rfl

theorem applyEntryUpdates_idem (e : EntryRow) (ed : EntryData) :
    applyEntryUpdates (applyEntryUpdates e ed) ed = applyEntryUpdates e ed := by
  dsimp only [applyEntryUpdates]
  simp only [updF_idem, updClass_idem, updParts_idem]

theorem applyEntryUpdates_reflects (e : EntryRow) (ed : EntryData) :
    entryReflects ed (applyEntryUpdates e ed) := by
  unfold entryReflects
  refine ⟨?_, ?_, ?_, ?_, ?_, ?_, ?_, ?_, ?_, ?_, ?_, ?_, ?_, ?_, ?_, ?_, ?_, ?_, ?_,
    ?_, ?_, ?_, ?_, ?_, ?_, ?_, ?_, ?_⟩
  all_goals first
  | (intro v h; simp [applyEntryUpdates, updF, updClass, updParts, h])
  | (intro h; simp [applyEntryUpdates, updF, updClass, updParts, h])

theorem applyEntryUpdates_preserves (e : EntryRow) (ed : EntryData) :
    entryPreserves ed e (applyEntryUpdates e ed) := by
  unfold entryPreserves
  refine ⟨?_, ?_, ?_, ?_, ?_, ?_, ?_, ?_, ?_, ?_, ?_, ?_, ?_, ?_, ?_, ?_, ?_, ?_, ?_,
    ?_, ?_, ?_, ?_, ?_, ?_, ?_⟩
  all_goals intro h
  · simp [applyEntryUpdates, updClass, h.1, h.2]
  all_goals simp [applyEntryUpdates, updF, updParts, h]

theorem updateFirst_append_of_none {α : Type} (p : α → Bool) (y z : α)
    (l : List α) (hf : l.find? p = none) :
    updateFirst p y (l ++ [z]) = l ++ updateFirst p y [z] := by
  induction l with
  | nil => rfl
  | cons a t ih =>
    by_cases ha : p a
    · rw [List.find?_cons_of_pos _ ha] at hf; cases hf
    · rw [List.find?_cons_of_neg _ ha] at hf
      simp [updateFirst, ha, ih hf]

theorem upsert_race_entry_spec (entries : List EntryRow) (ed : EntryData)
    (h1 : truthyN ed.race_id = true) (h2 : truthyN ed.lane = true)
    (h3 : truthyN ed.player_id = true)
    (hu : entries.countP (entryMatches ed) ≤ 1) :
    ∃ e1 entries1,
      upsert_race_entry entries ed = .ok (e1, entries1) ∧
      upsert_race_entry entries1 ed = .ok (e1, entries1) ∧
      entries1.countP (entryMatches ed) = 1 ∧
      entries1.length ≤ entries.length + 1 ∧
      entries1.find? (entryMatches ed) = some e1 ∧
      e1.player_id = ed.player_id.getD 0 ∧
      entryReflects ed e1 := by
  have hget : ∀ l : List EntryRow,
      get_race_entry l (ed.race_id.getD 0) (ed.lane.getD 0) = l.find? (entryMatches ed) :=
    fun l => rfl
  cases hf : entries.find? (entryMatches ed) with
  | some e0 =>
    have hq0 : entryMatches ed e0 = true := List.find?_some hf
    set pid := ed.player_id.getD 0 with hpid
    set entry1 := (if e0.player_id ≠ pid then { e0 with player_id := pid } else e0)
      with hentry1
    set e1 := applyEntryUpdates entry1 ed with he1
    have hr1 : entry1.race_id = e0.race_id := by
      rw [hentry1]; by_cases hc : e0.player_id ≠ pid <;> simp [hc]
    have hl1 : entry1.lane = e0.lane := by
      rw [hentry1]; by_cases hc : e0.player_id ≠ pid <;> simp [hc]
    have hp1 : entry1.player_id = pid := by
      rw [hentry1]
      by_cases hc : e0.player_id ≠ pid
      · simp [hc]
      · rw [if_neg hc]
        exact not_ne_iff.mp hc
    have hq1 : entryMatches ed e1 = true := by
      have hra : e1.race_id = entry1.race_id := rfl
      have hla : e1.lane = entry1.lane := rfl
      simp only [entryMatches, decide_eq_true_eq] at hq0 ⊢
      rw [hra, hla, hr1, hl1]
      exact hq0
    have hpe1 : e1.player_id = pid := by
      have : e1.player_id = entry1.player_id := rfl
      rw [this, hp1]
    have hcall1 : upsert_race_entry entries ed =
        .ok (e1, updateFirst (entryMatches ed) e1 entries) := by
      unfold upsert_race_entry
      rw [if_neg (by simp [h1, h2, h3])]
      dsimp only
      rw [hget entries, hf]
    have hfind1 : (updateFirst (entryMatches ed) e1 entries).find? (entryMatches ed) =
        some e1 := find?_updateFirst_self (entryMatches ed) e1 hq1 entries e0 hf
    have happ : applyEntryUpdates e1 ed = e1 := by
      rw [he1]
      exact applyEntryUpdates_idem entry1 ed
    have hupd : updateFirst (entryMatches ed) e1 (updateFirst (entryMatches ed) e1 entries) =
        updateFirst (entryMatches ed) e1 entries :=
      updateFirst_idem (entryMatches ed) e1 hq1 entries
    have hcall2 : upsert_race_entry (updateFirst (entryMatches ed) e1 entries) ed =
        .ok (e1, updateFirst (entryMatches ed) e1 entries) := by
      unfold upsert_race_entry
      rw [if_neg (by simp [h1, h2, h3])]
      dsimp only
      rw [hget _, hfind1]
      dsimp only
      rw [if_neg (by rw [hpe1, hpid]; simp)]
      rw [happ, hupd]
    refine ⟨e1, updateFirst (entryMatches ed) e1 entries, hcall1, hcall2, ?_, ?_, hfind1,
      hpe1, ?_⟩
    · rw [countP_updateFirst (entryMatches ed) e1 hq1 entries]
      exact countP_eq_one_of_found (entryMatches ed) entries e0 hf hu
    · rw [length_updateFirst]
      omega
    · rw [he1]
      exact applyEntryUpdates_reflects entry1 ed
  | none =>
    set pid := ed.player_id.getD 0 with hpid
    set e1 := applyEntryUpdates (blankEntry (ed.race_id.getD 0) (ed.lane.getD 0) pid) ed
      with he1
    have hq1 : entryMatches ed e1 = true := by
      have hra : e1.race_id = ed.race_id.getD 0 := rfl
      have hla : e1.lane = ed.lane.getD 0 := rfl
      simp [entryMatches, hra, hla]
    have hpe1 : e1.player_id = pid := rfl
    have hcall1 : upsert_race_entry entries ed = .ok (e1, entries ++ [e1]) := by
      unfold upsert_race_entry
      rw [if_neg (by simp [h1, h2, h3])]
      dsimp only
      rw [hget entries, hf]
    have hfind1 : (entries ++ [e1]).find? (entryMatches ed) = some e1 := by
      rw [find?_append_of_none (entryMatches ed) entries [e1] hf,
        List.find?_cons_of_pos _ hq1]
    have happ : applyEntryUpdates e1 ed = e1 := by
      rw [he1]
      exact applyEntryUpdates_idem _ ed
    have hupd : updateFirst (entryMatches ed) e1 (entries ++ [e1]) = entries ++ [e1] := by
      rw [updateFirst_append_of_none (entryMatches ed) e1 e1 entries hf]
      dsimp only [updateFirst]
      rw [if_pos hq1]
    have hcall2 : upsert_race_entry (entries ++ [e1]) ed = .ok (e1, entries ++ [e1]) := by
      unfold upsert_race_entry
      rw [if_neg (by simp [h1, h2, h3])]
      dsimp only
      rw [hget _, hfind1]
      dsimp only
      rw [if_neg (by rw [hpe1, hpid]; simp)]
      rw [happ, hupd]
    refine ⟨e1, entries ++ [e1], hcall1, hcall2, ?_, by simp, hfind1, hpe1, ?_⟩
    · rw [List.countP_append, List.countP_eq_zero.mpr
        (fun a ha => by simp [List.find?_eq_none.mp hf a ha]), List.countP_cons, hq1]
      simp
    · rw [he1]
      exact applyEntryUpdates_reflects _ ed

theorem get_or_create_race_spec (races : List RaceRow) (rd : RaceData)
    (h1 : truthyS rd.hd = true) (h2 : truthyS rd.jcd = true)
    (h3 : truthyN rd.rno = true) (h4 : truthyN rd.season_year = true)
    (h5 : truthyN rd.season_term = true)
    (hu : races.countP (raceMatches rd) ≤ 1) :
    ∃ r1 races1,
      get_or_create_race races rd = .ok (r1, races1) ∧
      get_or_create_race races1 rd = .ok (r1, races1) ∧
      races1.countP (raceMatches rd) = 1 ∧
      races1.length ≤ races.length + 1 := by
  cases hf : races.find? (raceMatches rd) with
  | some race =>
    have hcall : get_or_create_race races rd = .ok (race, races) := by
      unfold get_or_create_race
      rw [if_neg (by simp [h1, h2, h3]), if_neg (by simp [h4, h5]), hf]
    exact ⟨race, races, hcall, hcall,
      countP_eq_one_of_found (raceMatches rd) races race hf hu, by omega⟩
  | none =>
    set newRace : RaceRow :=
      { hd := rd.hd.getD ""
        jcd := rd.jcd.getD ""
        rno := rd.rno.getD 0
        race_name := rd.race_name
        distance := rd.distance
        deadline := rd.deadline
        weather := rd.weather
        wind_speed := rd.wind_speed
        wind_dir := rd.wind_dir
        water_temp := rd.water_temp
        wave_height := rd.wave_height
        season_year := rd.season_year.getD 0
        season_term := rd.season_term.getD 0 } with hnew
    have hqn : raceMatches rd newRace = true := by
      simp [raceMatches, hnew]
    have hcall1 : get_or_create_race races rd = .ok (newRace, races ++ [newRace]) := by
      unfold get_or_create_race
      rw [if_neg (by simp [h1, h2, h3]), if_neg (by simp [h4, h5]), hf]
    have hfind1 : (races ++ [newRace]).find? (raceMatches rd) = some newRace := by
      rw [find?_append_of_none (raceMatches rd) races [newRace] hf,
        List.find?_cons_of_pos _ hqn]
    have hcall2 : get_or_create_race (races ++ [newRace]) rd =
        .ok (newRace, races ++ [newRace]) := by
      unfold get_or_create_race
      rw [if_neg (by simp [h1, h2, h3]), if_neg (by simp [h4, h5]), hfind1]
    refine ⟨newRace, races ++ [newRace], hcall1, hcall2, ?_, by simp⟩
    rw [List.countP_append, List.countP_eq_zero.mpr
      (fun a ha => by simp [List.find?_eq_none.mp hf a ha]), List.countP_cons, hqn]
    simp

/-- C1: re-upserting the same complete Race and RaceEntry payload is
idempotent — under the uniqueness invariant of the storage, after two
calls exactly one race row matches the natural identity, exactly one entry
row matches the race and lane, no duplicates appear (at most one row is
added), the second calls return states identical to the first, and the
surviving entry row carries every supplied field of the payload. -/
theorem race_entry_upsert_idempotent (races : List RaceRow) (entries : List EntryRow)
    (rd : RaceData) (ed : EntryData)
    (hrd : truthyS rd.hd = true ∧ truthyS rd.jcd = true ∧ truthyN rd.rno = true ∧
      truthyN rd.season_year = true ∧ truthyN rd.season_term = true)
    (hed : truthyN ed.race_id = true ∧ truthyN ed.lane = true ∧
      truthyN ed.player_id = true)
    (hur : races.countP (raceMatches rd) ≤ 1)
    (hue : entries.countP (entryMatches ed) ≤ 1) :
    ∃ r1 races1 e1 entries1,
      get_or_create_race races rd = .ok (r1, races1) ∧
      get_or_create_race races1 rd = .ok (r1, races1) ∧
      races1.countP (raceMatches rd) = 1 ∧
      races1.length ≤ races.length + 1 ∧
      upsert_race_entry entries ed = .ok (e1, entries1) ∧
      upsert_race_entry entries1 ed = .ok (e1, entries1) ∧
      entries1.countP (entryMatches ed) = 1 ∧
      entries1.length ≤ entries.length + 1 ∧
      entries1.find? (entryMatches ed) = some e1 ∧
      e1.player_id = ed.player_id.getD 0 ∧
      entryReflects ed e1 := by
  obtain ⟨r1, races1, hra, hrb, hrc, hrd2⟩ :=
    get_or_create_race_spec races rd hrd.1 hrd.2.1 hrd.2.2.1 hrd.2.2.2.1 hrd.2.2.2.2 hur
  obtain ⟨e1, entries1, hea, heb, hec, hed2, hee, hef, heg⟩ :=
    upsert_race_entry_spec entries ed hed.1 hed.2.1 hed.2.2 hue
  exact ⟨r1, races1, e1, entries1, hra, hrb, hrc, hrd2, hea, heb, hec, hed2, hee, hef, heg⟩

/-- C1 witness: the theorem at the concrete complete payload fixtures over
empty storage. -/
theorem race_entry_upsert_idempotent_witness :
    ∃ r1 races1 e1 entries1,
      get_or_create_race [] demoRaceData = .ok (r1, races1) ∧
      get_or_create_race races1 demoRaceData = .ok (r1, races1) ∧
      races1.countP (raceMatches demoRaceData) = 1 ∧
      races1.length ≤ ([] : List RaceRow).length + 1 ∧
      upsert_race_entry [] demoEntryData = .ok (e1, entries1) ∧
      upsert_race_entry entries1 demoEntryData = .ok (e1, entries1) ∧
      entries1.countP (entryMatches demoEntryData) = 1 ∧
      entries1.length ≤ ([] : List EntryRow).length + 1 ∧
      entries1.find? (entryMatches demoEntryData) = some e1 ∧
      e1.player_id = demoEntryData.player_id.getD 0 ∧
      entryReflects demoEntryData e1 :=
  race_entry_upsert_idempotent [] [] demoRaceData demoEntryData
    (by refine ⟨?_, ?_, ?_, ?_, ?_⟩ <;> decide) (by refine ⟨?_, ?_, ?_⟩ <;> decide)
    (by decide) (by decide)

/-! ## Claim C9 -/

/-- C9 counterexample: the claim promises that an upsert on an existing
entity applies every supplied field, but get_or_create_player on an
existing player ignores a supplied branch — with stored branch X and
supplied branch Y, the stored branch remains X. -/
theorem player_partial_update_cex :
    (get_or_create_player [demoPlayerRow] demoPlayerData).map (fun x => x.1.branch) =
      .ok (some "X") ∧
    demoPlayerData.branch = some "Y" ∧
    (some "X" : Option String) ≠ some "Y" := by
  refine ⟨by decide, rfl, by simp⟩

/-- C9 (amended): for an existing RaceEntry the upsert applies exactly the
supplied fields — with a conflicting player identity overwritten — and
leaves every unsupplied field untouched; for an existing Player only the
name is ever updated, overwritten exactly when the supplied name is truthy
and differs, every other supplied field being ignored, and the
registration number never changes. -/
theorem partial_update_semantics
    (players : List PlayerRow) (pd : PlayerData) (p0 : PlayerRow)
    (hpid : truthyN pd.player_id = true)
    (hfindp : players.find? (fun p => p.player_id == pd.player_id.getD 0) = some p0)
    (entries : List EntryRow) (ed : EntryData) (e0 : EntryRow)
    (h1 : truthyN ed.race_id = true) (h2 : truthyN ed.lane = true)
    (h3 : truthyN ed.player_id = true)
    (hfinde : entries.find? (entryMatches ed) = some e0) :
    (∃ p1 players1,
      get_or_create_player players pd = .ok (p1, players1) ∧
      p1.player_id = p0.player_id ∧
      p1.name = (if p0.name ≠ pd.name ∧ truthyS pd.name then pd.name else p0.name) ∧
      p1.branch = p0.branch ∧
      p1.hometown = p0.hometown ∧
      p1.birth_date = p0.birth_date) ∧
    (∃ e1 entries1,
      upsert_race_entry entries ed = .ok (e1, entries1) ∧
      e1.race_id = e0.race_id ∧
      e1.lane = e0.lane ∧
      e1.player_id = ed.player_id.getD 0 ∧
      entryReflects ed e1 ∧
      entryPreserves ed e0 e1) := by
  constructor
  · unfold get_or_create_player
    rw [if_neg (by simp [hpid])]
    dsimp only
    rw [hfindp]
    dsimp only
    by_cases hc : p0.name ≠ pd.name ∧ truthyS pd.name
    · rw [if_pos hc]
      exact ⟨_, _, rfl, rfl, by rw [if_pos hc], rfl, rfl, rfl⟩
    · rw [if_neg hc]
      exact ⟨_, _, rfl, rfl, by rw [if_neg hc], rfl, rfl, rfl⟩
  · have hget : ∀ l : List EntryRow,
        get_race_entry l (ed.race_id.getD 0) (ed.lane.getD 0) =
          l.find? (entryMatches ed) := fun l => rfl
    by_cases hc : e0.player_id ≠ ed.player_id.getD 0
    · refine ⟨applyEntryUpdates { e0 with player_id := ed.player_id.getD 0 } ed,
        updateFirst (entryMatches ed)
          (applyEntryUpdates { e0 with player_id := ed.player_id.getD 0 } ed) entries,
        ?_, rfl, rfl, rfl, applyEntryUpdates_reflects _ ed,
        applyEntryUpdates_preserves { e0 with player_id := ed.player_id.getD 0 } ed⟩
      unfold upsert_race_entry
      rw [if_neg (by simp [h1, h2, h3])]
      dsimp only
      rw [hget entries, hfinde]
      dsimp only
      rw [if_pos hc]
    · refine ⟨applyEntryUpdates e0 ed,
        updateFirst (entryMatches ed) (applyEntryUpdates e0 ed) entries, ?_, rfl, rfl, ?_,
        applyEntryUpdates_reflects e0 ed, applyEntryUpdates_preserves e0 ed⟩
      · unfold upsert_race_entry
        rw [if_neg (by simp [h1, h2, h3])]
        dsimp only
        rw [hget entries, hfinde]
        dsimp only
        rw [if_neg hc]
      · have : (applyEntryUpdates e0 ed).player_id = e0.player_id := rfl
        rw [this]
        exact not_ne_iff.mp hc

/-- C9 witness: the amended theorem at a concrete stored player (name
kept, supplied branch ignored) and a concrete stored entry row receiving
the concrete payload. -/
theorem partial_update_semantics_witness :
    (∃ p1 players1,
      get_or_create_player [demoPlayerRow] demoPlayerData = .ok (p1, players1) ∧
      p1.player_id = demoPlayerRow.player_id ∧
      p1.name = (if demoPlayerRow.name ≠ demoPlayerData.name ∧ truthyS demoPlayerData.name
        then demoPlayerData.name else demoPlayerRow.name) ∧
      p1.branch = demoPlayerRow.branch ∧
      p1.hometown = demoPlayerRow.hometown ∧
      p1.birth_date = demoPlayerRow.birth_date) ∧
    (∃ e1 entries1,
      upsert_race_entry [blankEntry 1 3 500] demoEntryData = .ok (e1, entries1) ∧
      e1.race_id = (blankEntry 1 3 500).race_id ∧
      e1.lane = (blankEntry 1 3 500).lane ∧
      e1.player_id = demoEntryData.player_id.getD 0 ∧
      entryReflects demoEntryData e1 ∧
      entryPreserves demoEntryData (blankEntry 1 3 500) e1) :=
  partial_update_semantics [demoPlayerRow] demoPlayerData demoPlayerRow (by decide)
    (by decide) [blankEntry 1 3 500] demoEntryData (blankEntry 1 3 500)
    (by decide) (by decide) (by decide) (by decide)

/-! ## Claim C4 -/

theorem digitChar_isDigit (d : Nat) (h : d < 10) : (Nat.digitChar d).isDigit = true := by
  interval_cases d <;> decide

theorem digitChar_toNat (d : Nat) (h : d < 10) : (Nat.digitChar d).toNat = 48 + d := by
  interval_cases d <;> decide

theorem digitChar_ne_slash (d : Nat) (h : d < 10) : Nat.digitChar d ≠ '/' := by
  interval_cases d <;> decide

theorem splitGo_no_occ (c0 : Char) (cs : List Char) :
    ∀ (f : Nat) (cur : List Char), cs.length ≤ f → (∀ c ∈ cs, c ≠ c0) →
    splitGo [c0] f cur cs = [cur.reverse ++ cs] := by
  induction cs with
  | nil =>
    intro f cur _ _
    cases f <;> simp [splitGo]
  | cons c t ih =>
    intro f cur hf hne
    match f with
    | f2 + 1 =>
      have hc : c ≠ c0 := hne c (List.mem_cons_self c t)
      have hpre : ¬([c0].isPrefixOf (c :: t) = true) := by
        simp [List.isPrefixOf]
        exact fun he => hc he.symm
      simp only [splitGo]
      rw [if_neg (fun hcon => hpre hcon.2)]
      rw [ih f2 (c :: cur) (by simpa using Nat.lt_succ_iff.mp (Nat.lt_of_lt_of_le
        (Nat.lt_succ_of_le (Nat.le_refl _)) hf))
        (fun x hx => hne x (List.mem_cons_of_mem c hx))]
      simp

theorem basename_no_slash (s : String) (h : ∀ c ∈ s.toList, c ≠ '/') :
    basename s = s := by
  unfold basename pySplit
  have hsep : ("/" : String).toList = ['/'] := rfl
  rw [hsep, splitGo_no_occ '/' s.toList (s.toList.length + 1) [] (by omega) h]
  rfl

set_option maxHeartbeats 1000000 in
theorem re_match_fan_csv (c1 c2 c3 c4 : Char) (h1 : c1.isDigit = true)
    (h2 : c2.isDigit = true) (h3 : c3.isDigit = true) (h4 : c4.isDigit = true) :
    re_match fanPattern (String.mk ['f','a','n',c1,c2,c3,c4,'.','c','s','v']) =
      some ⟨String.mk ['f','a','n',c1,c2,c3,c4,'.','c','s','v'],
        [String.mk [c1,c2], String.mk [c3,c4], "csv"]⟩ := by
  simp [re_match, reFuel, fanPattern, strRE, RE.size, mtch, sliceStr, h1, h2, h3, h4]

set_option maxHeartbeats 1000000 in
theorem re_match_fan_parquet (c1 c2 c3 c4 : Char) (h1 : c1.isDigit = true)
    (h2 : c2.isDigit = true) (h3 : c3.isDigit = true) (h4 : c4.isDigit = true) :
    re_match fanPattern (String.mk ['f','a','n',c1,c2,c3,c4,'.','p','a','r','q','u','e','t']) =
      some ⟨String.mk ['f','a','n',c1,c2,c3,c4,'.','p','a','r','q','u','e','t'],
        [String.mk [c1,c2], String.mk [c3,c4], "parquet"]⟩ := by
  simp [re_match, reFuel, fanPattern, strRE, RE.size, mtch, sliceStr, h1, h2, h3, h4]

theorem matchGroup_one (w g1 g2 g3 : String) :
    matchGroup ⟨w, [g1, g2, g3]⟩ 1 = .ok g1 := rfl

theorem matchGroup_two (w g1 g2 g3 : String) :
    matchGroup ⟨w, [g1, g2, g3]⟩ 2 = .ok g2 := rfl

set_option maxHeartbeats 1000000 in
/-- C4: for every bulk-statistics filename fanYYMM.csv or fanYYMM.parquet
with a valid month, parse_filename returns the season assigned by the
calendar rule — term one of year 2000+YY for months four to nine, term two
of that year for months ten to twelve, term two of the previous year for
months one to three — so the term is always one or two; in particular
fan2410.csv gives year 2024 term 2 with window 2024-10-01 to 2025-03-31,
and fan2403.csv gives year 2023 term 2. -/
theorem parse_filename_season_term (yy mm : Nat) (hyy : yy < 100)
    (hmm1 : 1 ≤ mm) (hmm2 : mm ≤ 12) :
    (parse_filename (mkFanName yy mm "csv") = .ok (claimSeason yy mm) ∧
      parse_filename (mkFanName yy mm "parquet") = .ok (claimSeason yy mm)) ∧
    ((claimSeason yy mm).2 = 1 ∨ (claimSeason yy mm).2 = 2) ∧
    ((4 ≤ mm ∧ mm ≤ 9) → claimSeason yy mm = (2000 + yy, 1)) ∧
    ((10 ≤ mm ∧ mm ≤ 12) → claimSeason yy mm = (2000 + yy, 2)) ∧
    ((1 ≤ mm ∧ mm ≤ 3) → claimSeason yy mm = (2000 + yy - 1, 2)) ∧
    parse_filename "fan2410.csv" = .ok (2024, 2) ∧
    calculate_term_dates 2024 2 = .ok (⟨2024, 10, 1⟩, ⟨2025, 3, 31⟩) ∧
    parse_filename "fan2403.csv" = .ok (2023, 2) := by
  have hd1 : yy / 10 % 10 < 10 := Nat.mod_lt _ (by omega)
  have hd2 : yy % 10 < 10 := Nat.mod_lt _ (by omega)
  have hd3 : mm / 10 % 10 < 10 := Nat.mod_lt _ (by omega)
  have hd4 : mm % 10 < 10 := Nat.mod_lt _ (by omega)
  have hg1 : digitGroupToNat
      (String.mk [Nat.digitChar (yy / 10 % 10), Nat.digitChar (yy % 10)]) = yy := by
    simp [digitGroupToNat, digitsToNat, digitChar_toNat _ hd1, digitChar_toNat _ hd2]
    omega
  have hg2 : digitGroupToNat
      (String.mk [Nat.digitChar (mm / 10 % 10), Nat.digitChar (mm % 10)]) = mm := by
    simp [digitGroupToNat, digitsToNat, digitChar_toNat _ hd3, digitChar_toNat _ hd4]
    omega
  have harith : (if 4 ≤ mm ∧ mm ≤ 9 then (Except.ok (2000 + yy, 1) : Except String (Nat × Nat))
      else if 10 ≤ mm ∧ mm ≤ 12 then .ok (2000 + yy, 2)
      else if 1 ≤ mm ∧ mm ≤ 3 then .ok (2000 + yy - 1, 2)
      else .error "月の値が不正です。") = .ok (claimSeason yy mm) := by
    unfold claimSeason
    split_ifs <;> first | rfl | (exfalso; omega)
  have hcsv : parse_filename (mkFanName yy mm "csv") = .ok (claimSeason yy mm) := by
    have hname : mkFanName yy mm "csv" = String.mk ['f','a','n',
        Nat.digitChar (yy / 10 % 10), Nat.digitChar (yy % 10),
        Nat.digitChar (mm / 10 % 10), Nat.digitChar (mm % 10), '.', 'c','s','v'] := rfl
    have hbase : basename (mkFanName yy mm "csv") = mkFanName yy mm "csv" := by
      apply basename_no_slash
      rw [hname]
      intro c hc
      simp only [String.toList, List.mem_cons, List.not_mem_nil, or_false] at hc
      rcases hc with rfl|rfl|rfl|rfl|rfl|rfl|rfl|rfl|rfl|rfl|rfl
      · decide
      · decide
      · decide
      · exact digitChar_ne_slash _ hd1
      · exact digitChar_ne_slash _ hd2
      · exact digitChar_ne_slash _ hd3
      · exact digitChar_ne_slash _ hd4
      all_goals decide
    have hrm : re_match fanPattern (mkFanName yy mm "csv") =
        some ⟨mkFanName yy mm "csv",
          [String.mk [Nat.digitChar (yy / 10 % 10), Nat.digitChar (yy % 10)],
           String.mk [Nat.digitChar (mm / 10 % 10), Nat.digitChar (mm % 10)], "csv"]⟩ := by
      rw [hname]
      exact re_match_fan_csv _ _ _ _ (digitChar_isDigit _ hd1) (digitChar_isDigit _ hd2)
        (digitChar_isDigit _ hd3) (digitChar_isDigit _ hd4)
    unfold parse_filename
    dsimp only
    rw [hbase, hrm]
    dsimp only
    rw [matchGroup_one, matchGroup_two]
    dsimp only [Except.toOption, Option.getD]
    rw [hg1, hg2]
    exact harith
  have hparquet : parse_filename (mkFanName yy mm "parquet") = .ok (claimSeason yy mm) := by
    have hname : mkFanName yy mm "parquet" = String.mk ['f','a','n',
        Nat.digitChar (yy / 10 % 10), Nat.digitChar (yy % 10),
        Nat.digitChar (mm / 10 % 10), Nat.digitChar (mm % 10), '.',
        'p','a','r','q','u','e','t'] := rfl
    have hbase : basename (mkFanName yy mm "parquet") = mkFanName yy mm "parquet" := by
      apply basename_no_slash
      rw [hname]
      intro c hc
      simp only [String.toList, List.mem_cons, List.not_mem_nil, or_false] at hc
      rcases hc with rfl|rfl|rfl|rfl|rfl|rfl|rfl|rfl|rfl|rfl|rfl|rfl|rfl|rfl|rfl
      · decide
      · decide
      · decide
      · exact digitChar_ne_slash _ hd1
      · exact digitChar_ne_slash _ hd2
      · exact digitChar_ne_slash _ hd3
      · exact digitChar_ne_slash _ hd4
      all_goals decide
    have hrm : re_match fanPattern (mkFanName yy mm "parquet") =
        some ⟨mkFanName yy mm "parquet",
          [String.mk [Nat.digitChar (yy / 10 % 10), Nat.digitChar (yy % 10)],
           String.mk [Nat.digitChar (mm / 10 % 10), Nat.digitChar (mm % 10)], "parquet"]⟩ := by
      rw [hname]
      exact re_match_fan_parquet _ _ _ _ (digitChar_isDigit _ hd1) (digitChar_isDigit _ hd2)
        (digitChar_isDigit _ hd3) (digitChar_isDigit _ hd4)
    unfold parse_filename
    dsimp only
    rw [hbase, hrm]
    dsimp only
    rw [matchGroup_one, matchGroup_two]
    dsimp only [Except.toOption, Option.getD]
    rw [hg1, hg2]
    exact harith
  refine ⟨⟨hcsv, hparquet⟩, ?_, ?_, ?_, ?_, by decide, by decide, by decide⟩
  · unfold claimSeason
    split_ifs <;> simp
  · intro h
    unfold claimSeason
    rw [if_pos h]
  · intro h
    unfold claimSeason
    rw [if_neg (by omega), if_pos (by omega)]
  · intro h
    unfold claimSeason
    rw [if_neg (by omega), if_neg (by omega)]

/-- C4 witness: the theorem at the two-digit year 24 and month 10,
matching the fan2410.csv example. -/
theorem parse_filename_season_term_witness :
    (parse_filename (mkFanName 24 10 "csv") = .ok (claimSeason 24 10) ∧
      parse_filename (mkFanName 24 10 "parquet") = .ok (claimSeason 24 10)) ∧
    ((claimSeason 24 10).2 = 1 ∨ (claimSeason 24 10).2 = 2) ∧
    ((4 ≤ 10 ∧ 10 ≤ 9) → claimSeason 24 10 = (2000 + 24, 1)) ∧
    ((10 ≤ 10 ∧ 10 ≤ 12) → claimSeason 24 10 = (2000 + 24, 2)) ∧
    ((1 ≤ 10 ∧ 10 ≤ 3) → claimSeason 24 10 = (2000 + 24 - 1, 2)) ∧
    parse_filename "fan2410.csv" = .ok (2024, 2) ∧
    calculate_term_dates 2024 2 = .ok (⟨2024, 10, 1⟩, ⟨2025, 3, 31⟩) ∧
    parse_filename "fan2403.csv" = .ok (2023, 2) :=
  parse_filename_season_term 24 10 (by decide) (by decide) (by decide)

end Boat
